import Mathlib

/-!
# ath9k AHB bus glue (`ath9k/ahb.c`): reset sequences, variant table, probe and remove

A shallow embedding of `ahb.c`.  Every C function becomes a Lean function that returns its C
return value together with the chronological list of the calls it made into the rest of the
kernel (`Event`).  Values read from hardware registers come from an input tape: the `i`-th read
of a run returns `tape i`.
-/

namespace Ath9kAhb

/-! ## Constants -/

/-- Constants of the ath79 SoC headers (`ar71xx_regs.h`) and of the ath9k device-id header that
`ahb.c` uses without defining them.  They are parameters of the embedding. -/
structure Regs where
  AR913X_RESET_AMBA2WMAC : Nat
  AR933X_RESET_WMAC : Nat
  QCA955X_RESET_RTC : Nat
  AR933X_RESET_REG_BOOTSTRAP : Nat
  AR934X_RESET_REG_BOOTSTRAP : Nat
  QCA953X_RESET_REG_BOOTSTRAP : Nat
  QCA955X_RESET_REG_BOOTSTRAP : Nat
  QCA956X_RESET_REG_BOOTSTRAP : Nat
  AR933X_BOOTSTRAP_EEPBUSY : Nat
  AR933X_BOOTSTRAP_REF_CLK_40 : Nat
  AR934X_BOOTSTRAP_REF_CLK_40 : Nat
  QCA953X_BOOTSTRAP_REF_CLK_40 : Nat
  QCA955X_BOOTSTRAP_REF_CLK_40 : Nat
  QCA956X_BOOTSTRAP_REF_CLK_40 : Nat
  AR5416_AR9100_DEVID : Nat
  AR9300_DEVID_AR9330 : Nat
  AR9300_DEVID_AR9340 : Nat
  AR9300_DEVID_AR953X : Nat
  AR9300_DEVID_QCA955X : Nat
  AR9300_DEVID_QCA956X : Nat

/-- Offset of the DDR controller configuration register (`#define` at line 82). -/
def QCA955X_DDR_CTL_CONFIG : Nat := 0x108

/-- Activity bit of the WMAC in the DDR controller configuration: `BIT(23)` (line 83). -/
def QCA955X_DDR_CTL_CONFIG_ACT_WMAC : Nat := 2 ^ 23

/-- Linux errno values. -/
def ENXIO : Int := 6

/-- Linux errno `ENOMEM`. -/
def ENOMEM : Int := 12

/-- Linux errno `EINVAL`. -/
def EINVAL : Int := 22

/-- Linux errno `ETIMEDOUT`. -/
def ETIMEDOUT : Int := 110

/-- Truncation of a value to a C `u32`. -/
def u32 (v : Nat) : Nat := v % 2 ^ 32

/-- Truncation of a value to a C `u16`. -/
def u16 (v : Nat) : Nat := v % 2 ^ 16

/-! ## Observable calls -/

/-- Diagnostics printed by `ahb.c` (`pr_err` and `dev_err` calls), one constructor per message. -/
inductive Diag
  /-- The text "ar933x: WMAC reset timed out" (line 157). -/
  | wmac_reset_timed_out
  /-- The text "failed to load calibration data from mtd device" (line 303). -/
  | failed_to_load_calibration
  /-- The text "no platform data specified" (line 333). -/
  | no_platform_data
  /-- The text "no memory resource found" (line 339). -/
  | no_memory_resource
  /-- The text "ioremap failed" (line 345). -/
  | ioremap_failed
  /-- The text "no IRQ resource found" (line 351). -/
  | no_irq_resource
  /-- The text "no memory for ieee80211_hw" (line 360). -/
  | no_memory_for_hw
  /-- The text "request_irq failed" (line 378). -/
  | request_irq_failed
  /-- The text "failed to initialize device" (line 384). -/
  | failed_to_initialize
  deriving DecidableEq, Repr

/-- Calls made by `ahb.c` into the rest of the kernel, recorded in the order they happen. -/
inductive Event
  | ath79_device_reset_set (mask : Nat)
  | ath79_device_reset_clear (mask : Nat)
  | mdelay (ms : Nat)
  | udelay (us : Nat)
  /-- A read of a reset-controller register through `ath79_reset_rr`. -/
  | ath79_reset_rr (reg : Nat)
  /-- A read `__raw_readl(ath79_ddr_base + off)`. -/
  | raw_readl_ddr (off : Nat)
  | pr_err (msg : Diag)
  | dev_err (msg : Diag)
  | of_find_node_by_phandle (phandle : Nat)
  | get_mtd_device_nm (part : String)
  | mtd_read (from_off len : Nat)
  | put_mtd_device
  /-- The call `devm_kzalloc` for the platform data; `ok` tells whether memory was obtained. -/
  | devm_kzalloc (ok : Bool)
  /-- The call `devm_ioremap_nocache`; `ok` tells whether a mapping was obtained. -/
  | devm_ioremap_nocache (start size : Nat) (ok : Bool)
  | ath9k_fill_chanctx_ops
  /-- The call `ieee80211_alloc_hw`; `ok` tells whether a device context was obtained. -/
  | ieee80211_alloc_hw (ok : Bool)
  | platform_set_drvdata
  /-- The call `request_irq` with its return value. -/
  | request_irq (irq : Nat) (ret : Int)
  /-- The call `ath9k_init_device` with its return value. -/
  | ath9k_init_device (dev_id : Nat) (ret : Int)
  | ath9k_hw_name
  | wiphy_info
  | free_irq (irq : Nat)
  | ieee80211_free_hw
  | ath9k_deinit_device
  deriving DecidableEq, Repr

/-- How many register reads have been made so far on each input tape. -/
structure HwPos where
  /-- Number of `ath79_reset_rr` reads made so far. -/
  rr : Nat
  /-- Number of reads of the DDR controller made so far. -/
  ddr : Nat
  deriving DecidableEq, Repr

/-- Result of running a piece of C code: its value, the tape positions and the calls it made. -/
structure Step (α : Type) where
  ret : α
  pos : HwPos
  events : List Event

/-! ## Reset sequences (lines 126-180) -/

/-- The function `ar913x_wmac_reset` (lines 126-135). -/
def ar913x_wmac_reset (c : Regs) (pos : HwPos) : Step Int :=
  { ret := 0
    pos := pos
    events := [Event.ath79_device_reset_set c.AR913X_RESET_AMBA2WMAC, Event.mdelay 10,
               Event.ath79_device_reset_clear c.AR913X_RESET_AMBA2WMAC, Event.mdelay 10] }

/-- The `while (1)` loop of `ar933x_wmac_reset` (lines 144-155), by recursion on the value of
`retries` at the top of the iteration.  The value is `some r` when the loop body executed
`return r` and `none` when the loop was left through `break`. -/
def ar933x_wmac_reset_loop (c : Regs) (rr : Nat → Nat) : Nat → HwPos → Step (Option Int)
  | 0, pos =>
    let bootstrap := u32 (rr pos.rr)
    if bootstrap &&& c.AR933X_BOOTSTRAP_EEPBUSY = 0 then
      { ret := some 0, pos := { pos with rr := pos.rr + 1 },
        events := [Event.ath79_reset_rr c.AR933X_RESET_REG_BOOTSTRAP] }
    else
      -- retries-- == 0 : break
      { ret := none, pos := { pos with rr := pos.rr + 1 },
        events := [Event.ath79_reset_rr c.AR933X_RESET_REG_BOOTSTRAP] }
  | retries + 1, pos =>
    let bootstrap := u32 (rr pos.rr)
    if bootstrap &&& c.AR933X_BOOTSTRAP_EEPBUSY = 0 then
      { ret := some 0, pos := { pos with rr := pos.rr + 1 },
        events := [Event.ath79_reset_rr c.AR933X_RESET_REG_BOOTSTRAP] }
    else
      let rest := ar933x_wmac_reset_loop c rr retries { pos with rr := pos.rr + 1 }
      { ret := rest.ret, pos := rest.pos,
        events := Event.ath79_reset_rr c.AR933X_RESET_REG_BOOTSTRAP :: Event.udelay 10000
                    :: rest.events }

/-- The function `ar933x_wmac_reset` (lines 137-159): `retries` starts at 20. -/
def ar933x_wmac_reset (c : Regs) (rr : Nat → Nat) (pos : HwPos) : Step Int :=
  let loop := ar933x_wmac_reset_loop c rr 20 pos
  match loop.ret with
  | some r =>
    { ret := r, pos := loop.pos,
      events := [Event.ath79_device_reset_set c.AR933X_RESET_WMAC,
                 Event.ath79_device_reset_clear c.AR933X_RESET_WMAC] ++ loop.events }
  | none =>
    { ret := -ETIMEDOUT, pos := loop.pos,
      events := [Event.ath79_device_reset_set c.AR933X_RESET_WMAC,
                 Event.ath79_device_reset_clear c.AR933X_RESET_WMAC] ++ loop.events
                  ++ [Event.pr_err Diag.wmac_reset_timed_out] }

/-- The `for (i = 0; i < 10; i++)` loop of `qca955x_wmac_reset` (lines 166-172), by recursion on
`10 - i`. -/
def qca955x_wmac_reset_loop (ddr : Nat → Nat) : Nat → HwPos → Step Unit
  | 0, pos => { ret := (), pos := pos, events := [] }
  | n + 1, pos =>
    if u32 (ddr pos.ddr) &&& QCA955X_DDR_CTL_CONFIG_ACT_WMAC = 0 then
      { ret := (), pos := { pos with ddr := pos.ddr + 1 },
        events := [Event.raw_readl_ddr QCA955X_DDR_CTL_CONFIG] }
    else
      let rest := qca955x_wmac_reset_loop ddr n { pos with ddr := pos.ddr + 1 }
      { ret := (), pos := rest.pos,
        events := Event.raw_readl_ddr QCA955X_DDR_CTL_CONFIG :: Event.udelay 10 :: rest.events }

/-- The function `qca955x_wmac_reset` (lines 161-180). -/
def qca955x_wmac_reset (c : Regs) (ddr : Nat → Nat) (pos : HwPos) : Step Int :=
  let loop := qca955x_wmac_reset_loop ddr 10 pos
  { ret := 0
    pos := loop.pos
    events := loop.events ++
      [Event.ath79_device_reset_set c.QCA955X_RESET_RTC, Event.udelay 10,
       Event.ath79_device_reset_clear c.QCA955X_RESET_RTC, Event.udelay 10] }

/-- The function `ar9330_get_soc_revision` (lines 191-197). -/
def ar9330_get_soc_revision (ath79_soc_rev : Int) : Int :=
  if ath79_soc_rev = 1 then ath79_soc_rev else 0

/-- The function `ath79_get_soc_revision` (lines 199-202). -/
def ath79_get_soc_revision (ath79_soc_rev : Int) : Int :=
  ath79_soc_rev

/-! ## Variant table (lines 182-258) -/

/-- The functions of type `int (*)(void)` that `ahb.c` defines; a non-NULL function pointer of
the table is one of these names. -/
inductive IntFn
  | ar913x_wmac_reset
  | ar933x_wmac_reset
  | qca955x_wmac_reset
  | ar9330_get_soc_revision
  | ath79_get_soc_revision
  deriving DecidableEq, Repr

/-- The anonymous `enum` of lines 182-189: the indices of `of_ath_ahb_data`. -/
inductive Variant
  | AR913X_WMAC
  | AR933X_WMAC
  | AR934X_WMAC
  | QCA953X_WMAC
  | QCA955X_WMAC
  | QCA956X_WMAC
  deriving DecidableEq, Repr

/-- Numeric value of an enumerator. -/
def Variant.toNat : Variant → Nat
  | .AR913X_WMAC => 0
  | .AR933X_WMAC => 1
  | .AR934X_WMAC => 2
  | .QCA953X_WMAC => 3
  | .QCA955X_WMAC => 4
  | .QCA956X_WMAC => 5

/-- The type `struct of_ath_ahb_data` (lines 204-211); `none` is a NULL function pointer and a
field left out of an initialiser is zero. -/
structure struct_of_ath_ahb_data where
  dev_id : Nat
  bootstrap_reg : Nat
  bootstrap_ref : Nat
  soc_revision : Option IntFn
  wmac_reset : Option IntFn
  deriving DecidableEq, Repr

/-- The array `of_ath_ahb_data` (lines 211-248), indexed by the enumerators. -/
def of_ath_ahb_data (c : Regs) : Variant → struct_of_ath_ahb_data
  | .AR913X_WMAC =>
    { dev_id := u16 c.AR5416_AR9100_DEVID, bootstrap_reg := 0, bootstrap_ref := 0,
      soc_revision := none, wmac_reset := some IntFn.ar913x_wmac_reset }
  | .AR933X_WMAC =>
    { dev_id := u16 c.AR9300_DEVID_AR9330,
      bootstrap_reg := u32 c.AR933X_RESET_REG_BOOTSTRAP,
      bootstrap_ref := u32 c.AR933X_BOOTSTRAP_REF_CLK_40,
      soc_revision := some IntFn.ar9330_get_soc_revision,
      wmac_reset := some IntFn.ar933x_wmac_reset }
  | .AR934X_WMAC =>
    { dev_id := u16 c.AR9300_DEVID_AR9340,
      bootstrap_reg := u32 c.AR934X_RESET_REG_BOOTSTRAP,
      bootstrap_ref := u32 c.AR934X_BOOTSTRAP_REF_CLK_40,
      soc_revision := some IntFn.ath79_get_soc_revision, wmac_reset := none }
  | .QCA953X_WMAC =>
    { dev_id := u16 c.AR9300_DEVID_AR953X,
      bootstrap_reg := u32 c.QCA953X_RESET_REG_BOOTSTRAP,
      bootstrap_ref := u32 c.QCA953X_BOOTSTRAP_REF_CLK_40,
      soc_revision := some IntFn.ath79_get_soc_revision, wmac_reset := none }
  | .QCA955X_WMAC =>
    { dev_id := u16 c.AR9300_DEVID_QCA955X,
      bootstrap_reg := u32 c.QCA955X_RESET_REG_BOOTSTRAP,
      bootstrap_ref := u32 c.QCA955X_BOOTSTRAP_REF_CLK_40,
      soc_revision := none, wmac_reset := some IntFn.qca955x_wmac_reset }
  | .QCA956X_WMAC =>
    { dev_id := u16 c.AR9300_DEVID_QCA956X,
      bootstrap_reg := u32 c.QCA956X_RESET_REG_BOOTSTRAP,
      bootstrap_ref := u32 c.QCA956X_BOOTSTRAP_REF_CLK_40,
      soc_revision := some IntFn.ath79_get_soc_revision, wmac_reset := none }

/-- The table `of_ath_ahb_match` (lines 250-258) without its empty terminator: the compatible
string of each entry and the index `v` of its `.data = &of_ath_ahb_data[v]`. -/
def of_ath_ahb_match : List (String × Variant) :=
  [ ("qca,ar9130-wmac", Variant.AR913X_WMAC),
    ("qca,ar9330-wmac", Variant.AR933X_WMAC),
    ("qca,ar9340-wmac", Variant.AR934X_WMAC),
    ("qca,qca9530-wmac", Variant.QCA953X_WMAC),
    ("qca,qca9550-wmac", Variant.QCA955X_WMAC),
    ("qca,qca9560-wmac", Variant.QCA956X_WMAC) ]

/-! ## Devices, platform data and the kernel services used by the probe -/

/-- The properties of a device-tree node that `ahb.c` looks at. -/
structure device_node where
  name : String
  compatible : String
  /-- The property "label". -/
  label : Option String
  /-- The property "qca,led-pin", read with `of_property_read_u8`. -/
  led_pin : Option Nat
  /-- Presence of the property "qca,disable-2ghz". -/
  disable_2ghz : Bool
  /-- Presence of the property "qca,disable-5ghz". -/
  disable_5ghz : Bool
  /-- Presence of the property "qca,tx-gain-buffalo". -/
  tx_gain_buffalo : Bool
  /-- The bytes of the property "mtd-cal-data", when the property exists. -/
  mtd_cal_data : Option (List Nat)

/-- The fields of `struct ath9k_platform_data` that `ahb.c` writes; `eeprom_data` is the
calibration buffer as a list of bytes, whose length is `sizeof(pdata->eeprom_data)`. -/
structure ath9k_platform_data where
  led_pin : Int
  disable_2ghz : Bool
  disable_5ghz : Bool
  tx_gain_buffalo : Bool
  is_clk_25mhz : Bool
  external_reset : Option IntFn
  get_mac_revision : Option IntFn
  eeprom_data : List Nat
  deriving DecidableEq, Repr

/-- The fields of `struct ath_softc` that `ahb.c` sets (lines 367-371): the physical start of
the mapped register window and the interrupt number. -/
structure ath_softc where
  mem : Nat
  irq : Nat
  deriving DecidableEq, Repr

/-- The state of a `struct platform_device` that `ahb.c` reads and writes. -/
structure platform_device where
  /-- The `driver_data` of the matched id-table entry: `platform_get_device_id`. -/
  id : Option Nat
  of_node : Option device_node
  platform_data : Option ath9k_platform_data
  /-- Start and size of the resource `IORESOURCE_MEM` 0. -/
  mem_res : Option (Nat × Nat)
  /-- Start of the resource `IORESOURCE_IRQ` 0. -/
  irq_res : Option Nat
  /-- The pointer stored by `platform_set_drvdata`; the device context owns one `ath_softc`. -/
  drvdata : Option ath_softc

/-- Build configuration, hardware input tapes and the outcomes of the kernel services that the
probe calls. -/
structure Kernel where
  CONFIG_OF : Bool
  CONFIG_MTD : Bool
  regs : Regs
  /-- Value returned by the `i`-th call of `ath79_reset_rr`. -/
  rr : Nat → Nat
  /-- Value returned by the `i`-th read of the DDR controller configuration register. -/
  ddr : Nat → Nat
  ath79_soc_rev : Int
  /-- The node with a given phandle, when there is one. -/
  of_find_node_by_phandle : Nat → Option device_node
  /-- The MTD device with a given name, when it can be obtained; the device is given by the
  bytes that `mtd_read` delivers for an offset and a length. -/
  get_mtd_device_nm : String → Option (Nat → Nat → List Nat)
  /-- Number of bytes of `eeprom_data` in a freshly allocated `struct ath9k_platform_data`. -/
  sizeof_eeprom_data : Nat
  devm_kzalloc_ok : Bool
  devm_ioremap_ok : Bool
  alloc_hw_ok : Bool
  request_irq_ret : Int
  init_device_ret : Int
  /-- The indeterminate value of the local `dev_id` of `ath_ahb_probe` before it is assigned. -/
  uninit_dev_id : Nat

/-- A zero-filled `struct ath9k_platform_data`, as `devm_kzalloc` returns it. -/
def kzalloc_platform_data (k : Kernel) : ath9k_platform_data :=
  { led_pin := 0, disable_2ghz := false, disable_5ghz := false, tx_gain_buffalo := false,
    is_clk_25mhz := false, external_reset := none, get_mac_revision := none,
    eeprom_data := List.replicate k.sizeof_eeprom_data 0 }

/-- The kernel helper `of_match_device` for a node with one compatible string: NULL without a
node, else the first entry of the table with that string. -/
def of_match_device (table : List (String × Variant)) (of_node : Option device_node) :
    Option (String × Variant) :=
  match of_node with
  | none => none
  | some np => table.find? (fun m => m.1 == np.compatible)

/-! ## Calibration data (lines 85-124) -/

/-- The helper `be32_to_cpup` applied to cell number `cell` of a property given as bytes. -/
def be32_to_cpup (list : List Nat) (cell : Nat) : Nat :=
  ((list.getD (4 * cell) 0 % 256) * 2 ^ 24 + (list.getD (4 * cell + 1) 0 % 256) * 2 ^ 16
    + (list.getD (4 * cell + 2) 0 % 256) * 2 ^ 8 + list.getD (4 * cell + 3) 0 % 256)

/-- The effect of `mtd_read` on the buffer: the first `len` delivered bytes overwrite its
start. -/
def mtd_read_into (delivered : List Nat) (len : Nat) (buf : List Nat) : List Nat :=
  delivered.take len ++ buf.drop (delivered.take len).length

/-- The name under which `of_get_wifi_cal` looks up the MTD device of a node: its "label"
property, or else its name (lines 110-112). -/
def mtdPartName (node : device_node) : String :=
  match node.label with
  | some l => l
  | none => node.name

/-- Result of `of_get_wifi_cal`: return value, platform data and the calls made. -/
structure CalResult where
  ret : Int
  pdata : ath9k_platform_data
  events : List Event

/-- The function `of_get_wifi_cal` (lines 85-124).  Without `CONFIG_MTD` the body is only
`return 0`. -/
def of_get_wifi_cal (k : Kernel) (np : device_node) (pdata : ath9k_platform_data) : CalResult :=
  if k.CONFIG_MTD then
    match np.mtd_cal_data with
    | none => { ret := 0, pdata := pdata, events := [] }
    | some list =>
      if list.length ≠ 2 * 4 then
        { ret := 1, pdata := pdata, events := [] }
      else
        let phandle := be32_to_cpup list 0
        let mtd_np := if phandle ≠ 0 then k.of_find_node_by_phandle phandle else none
        let ev1 := if phandle ≠ 0 then [Event.of_find_node_by_phandle phandle] else []
        match mtd_np with
        | none => { ret := 1, pdata := pdata, events := ev1 }
        | some node =>
          let part := mtdPartName node
          match k.get_mtd_device_nm part with
          | none => { ret := 1, pdata := pdata, events := ev1 ++ [Event.get_mtd_device_nm part] }
          | some mtd =>
            let len := pdata.eeprom_data.length
            let from_off := be32_to_cpup list 1
            { ret := 0
              pdata := { pdata with
                eeprom_data := mtd_read_into (mtd from_off len) len pdata.eeprom_data }
              events := ev1 ++ [Event.get_mtd_device_nm part, Event.mtd_read from_off len,
                                Event.put_mtd_device] }
  else
    { ret := 0, pdata := pdata, events := [] }

/-! ## The device-tree part of the probe (lines 261-306) -/

/-- A call through a function pointer of type `int (*)(void)`. -/
def call_IntFn (k : Kernel) (f : IntFn) (pos : HwPos) : Step Int :=
  match f with
  | .ar913x_wmac_reset => ar913x_wmac_reset k.regs pos
  | .ar933x_wmac_reset => ar933x_wmac_reset k.regs k.rr pos
  | .qca955x_wmac_reset => qca955x_wmac_reset k.regs k.ddr pos
  | .ar9330_get_soc_revision =>
    { ret := ar9330_get_soc_revision k.ath79_soc_rev, pos := pos, events := [] }
  | .ath79_get_soc_revision =>
    { ret := ath79_get_soc_revision k.ath79_soc_rev, pos := pos, events := [] }

/-- Result of a block of `of_ath_ahb_probe`: platform data, tape positions and calls made. -/
structure OfStep where
  pdata : ath9k_platform_data
  pos : HwPos
  events : List Event

/-- Lines 287-290 of `of_ath_ahb_probe`: the reset is called and its return value is not
used. -/
def of_wmac_reset (k : Kernel) (data : struct_of_ath_ahb_data) (pdata : ath9k_platform_data)
    (pos : HwPos) : OfStep :=
  match data.wmac_reset with
  | some f =>
    let r := call_IntFn k f pos
    { pdata := { pdata with external_reset := some f }, pos := r.pos, events := r.events }
  | none => { pdata := pdata, pos := pos, events := [] }

/-- Lines 292-298 of `of_ath_ahb_probe`: detection of the reference clock. -/
def of_clock_detect (rr : Nat → Nat) (data : struct_of_ath_ahb_data)
    (pdata : ath9k_platform_data) (pos : HwPos) : OfStep :=
  if data.bootstrap_reg ≠ 0 ∧ data.bootstrap_ref ≠ 0 then
    let t := u32 (rr pos.rr)
    { pdata := if t &&& data.bootstrap_ref ≠ 0 then { pdata with is_clk_25mhz := false }
               else { pdata with is_clk_25mhz := true }
      pos := { pos with rr := pos.rr + 1 }
      events := [Event.ath79_reset_rr data.bootstrap_reg] }
  else
    { pdata := pdata, pos := pos, events := [] }

/-- Result of `of_ath_ahb_probe`: the returned device id and the state it leaves. -/
structure OfResult where
  ret : Nat
  pdata : ath9k_platform_data
  pos : HwPos
  events : List Event

/-- Lines 273-285 of `of_ath_ahb_probe`: the properties of the node are copied into the
platform data; a flag whose property is absent is left as it was. -/
def of_read_properties (np : device_node) (pdata : ath9k_platform_data) :
    ath9k_platform_data :=
  { pdata with
    led_pin := match np.led_pin with
      | some led_pin => ((led_pin % 2 ^ 8 : Nat) : Int)
      | none => -1
    disable_2ghz := if np.disable_2ghz then true else pdata.disable_2ghz
    disable_5ghz := if np.disable_5ghz then true else pdata.disable_5ghz
    tx_gain_buffalo := if np.tx_gain_buffalo then true else pdata.tx_gain_buffalo }

/-- The function `of_ath_ahb_probe` (lines 261-306).  The value is `none` when the function
dereferences a NULL pointer: `match->data` without a matching table entry. -/
def of_ath_ahb_probe (k : Kernel) (pdev : platform_device) (pdata : ath9k_platform_data)
    (pos : HwPos) : Option OfResult :=
  match pdev.of_node, of_match_device of_ath_ahb_match pdev.of_node with
  | some np, some m =>
    let data := of_ath_ahb_data k.regs m.2
    let pdata1 := of_read_properties np pdata
    let rst := of_wmac_reset k data pdata1 pos
    let clk := of_clock_detect k.rr data rst.pdata rst.pos
    let pdata2 := { clk.pdata with get_mac_revision := data.soc_revision }
    let cal := of_get_wifi_cal k np pdata2
    some
      { ret := data.dev_id
        pdata := cal.pdata
        pos := clk.pos
        events := rst.events ++ clk.events ++ cal.events ++
          (if cal.ret ≠ 0 then [Event.dev_err Diag.failed_to_load_calibration] else []) }
  | _, _ => none

/-! ## Probe and remove (lines 309-418) -/

/-- Result of `ath_ahb_probe`: the return value (`none` after a NULL pointer dereference), the
device and the calls made. -/
structure ProbeResult where
  ret : Option Int
  pdev : platform_device
  pos : HwPos
  events : List Event

/-- The function `ath_ahb_probe` (lines 309-400). -/
def ath_ahb_probe (k : Kernel) (pdev : platform_device) (pos : HwPos) : ProbeResult :=
  -- lines 322-323
  let dev_id0 : Nat := match pdev.id with
    | some driver_data => u16 driver_data
    | none => k.uninit_dev_id
  -- lines 325-330
  let of_alloc : Bool := k.CONFIG_OF && pdev.of_node.isSome
  let pdev1 : platform_device :=
    if of_alloc then
      { pdev with platform_data :=
          if k.devm_kzalloc_ok then some (kzalloc_platform_data k) else none }
    else pdev
  let ev1 : List Event := if of_alloc then [Event.devm_kzalloc k.devm_kzalloc_ok] else []
  match pdev1.platform_data with
  | none =>
    { ret := some (-EINVAL), pdev := pdev1, pos := pos,
      events := ev1 ++ [Event.dev_err Diag.no_platform_data] }
  | some pdata =>
    match pdev1.mem_res with
    | none =>
      { ret := some (- ENXIO), pdev := pdev1, pos := pos,
        events := ev1 ++ [Event.dev_err Diag.no_memory_resource] }
    | some (start, size) =>
      if k.devm_ioremap_ok = false then
        { ret := some (-ENOMEM), pdev := pdev1, pos := pos,
          events := ev1 ++ [Event.devm_ioremap_nocache start size false,
                            Event.dev_err Diag.ioremap_failed] }
      else
        match pdev1.irq_res with
        | none =>
          { ret := some (- ENXIO), pdev := pdev1, pos := pos,
            events := ev1 ++ [Event.devm_ioremap_nocache start size true,
                              Event.dev_err Diag.no_irq_resource] }
        | some irq =>
          if k.alloc_hw_ok = false then
            { ret := some (-ENOMEM), pdev := pdev1, pos := pos,
              events := ev1 ++ [Event.devm_ioremap_nocache start size true,
                                Event.ath9k_fill_chanctx_ops, Event.ieee80211_alloc_hw false,
                                Event.dev_err Diag.no_memory_for_hw] }
          else
            let sc : ath_softc := { mem := start, irq := irq }
            let pdev2 : platform_device := { pdev1 with drvdata := some sc }
            let ev2 : List Event :=
              ev1 ++ [Event.devm_ioremap_nocache start size true, Event.ath9k_fill_chanctx_ops,
                      Event.ieee80211_alloc_hw true, Event.platform_set_drvdata]
            -- lines 373-375
            let ofp : Option OfResult :=
              if k.CONFIG_OF then of_ath_ahb_probe k pdev2 pdata pos
              else some { ret := dev_id0, pdata := pdata, pos := pos, events := [] }
            match ofp with
            | none => { ret := none, pdev := pdev2, pos := pos, events := ev2 }
            | some o =>
              let dev_id := u16 o.ret
              let pdev3 : platform_device := { pdev2 with platform_data := some o.pdata }
              let ev3 := ev2 ++ o.events ++ [Event.request_irq irq k.request_irq_ret]
              if k.request_irq_ret ≠ 0 then
                { ret := some k.request_irq_ret, pdev := pdev3, pos := o.pos,
                  events := ev3 ++ [Event.dev_err Diag.request_irq_failed,
                                     Event.ieee80211_free_hw] }
              else
                let ev4 := ev3 ++ [Event.ath9k_init_device dev_id k.init_device_ret]
                if k.init_device_ret ≠ 0 then
                  { ret := some k.init_device_ret, pdev := pdev3, pos := o.pos,
                    events := ev4 ++ [Event.dev_err Diag.failed_to_initialize,
                                       Event.free_irq irq, Event.ieee80211_free_hw] }
                else
                  { ret := some 0, pdev := pdev3, pos := o.pos,
                    events := ev4 ++ [Event.ath9k_hw_name, Event.wiphy_info] }

/-- Result of `ath_ahb_remove`. -/
structure RemoveResult where
  ret : Int
  pdev : platform_device
  events : List Event

/-- The function `ath_ahb_remove` (lines 402-418). -/
def ath_ahb_remove (k : Kernel) (pdev : platform_device) : RemoveResult :=
  let events : List Event :=
    match pdev.drvdata with
    | some sc => [Event.ath9k_deinit_device, Event.free_irq sc.irq, Event.ieee80211_free_hw]
    | none => []
  { ret := 0
    pdev := if k.CONFIG_OF then { pdev with platform_data := none } else pdev
    events := events }

/-! ## Resource accounting on a list of calls -/

/-- The resources that the probe acquires. -/
inductive Resource
  /-- The register-space mapping obtained from `devm_ioremap_nocache`. -/
  | mapping
  /-- The device context obtained from `ieee80211_alloc_hw`. -/
  | context
  /-- The interrupt line claimed by `request_irq`. -/
  | irq_line (irq : Nat)
  /-- The device initialised by `ath9k_init_device`. -/
  | device
  deriving DecidableEq, Repr

/-- The resource a call acquires, when the call is a successful acquisition. -/
def Event.acquires : Event → Option Resource
  | .devm_ioremap_nocache _ _ true => some Resource.mapping
  | .ieee80211_alloc_hw true => some Resource.context
  | .request_irq irq ret => if ret = 0 then some (Resource.irq_line irq) else none
  | .ath9k_init_device _ ret => if ret = 0 then some Resource.device else none
  | _ => none

/-- The resource a call gives back, when the call is a release. -/
def Event.releases : Event → Option Resource
  | .free_irq irq => some (Resource.irq_line irq)
  | .ieee80211_free_hw => some Resource.context
  | .ath9k_deinit_device => some Resource.device
  | _ => none

/-- The resources acquired by a list of calls, in the order of their acquisition. -/
def acquired (es : List Event) : List Resource :=
  es.filterMap Event.acquires

/-- The resources released by a list of calls, in the order of their release. -/
def released (es : List Event) : List Resource :=
  es.filterMap Event.releases

/-- The effect of one call on the list of held resources. -/
def heldStep (h : List Resource) (e : Event) : List Resource :=
  match e.acquires, e.releases with
  | some r, _ => h ++ [r]
  | none, some r => h.erase r
  | none, none => h

/-- The resources still held after a list of calls: those acquired and not released since. -/
def held (es : List Event) : List Resource :=
  es.foldl heldStep []


/-- Number of `ath79_reset_rr` reads of register `reg` in a list of calls. -/
def countRR (reg : Nat) (es : List Event) : Nat :=
  es.count (Event.ath79_reset_rr reg)

/-- Number of `udelay(us)` calls in a list of calls. -/
def countUdelay (us : Nat) (es : List Event) : Nat :=
  es.count (Event.udelay us)

/-- Number of reads of the DDR controller register at offset `off` in a list of calls. -/
def countDdr (off : Nat) (es : List Event) : Nat :=
  es.count (Event.raw_readl_ddr off)

/-- The EEPBUSY bit is set in the value delivered by read number `i` (counted from 0). -/
def eepBusy (c : Regs) (rr : Nat → Nat) (i : Nat) : Prop :=
  u32 (rr i) &&& c.AR933X_BOOTSTRAP_EEPBUSY ≠ 0

/-- Values of the header constants as in the mainline kernel headers, used for concrete runs. -/
def ath79Regs : Regs :=
  { AR913X_RESET_AMBA2WMAC := 2 ^ 22
    AR933X_RESET_WMAC := 2 ^ 11
    QCA955X_RESET_RTC := 2 ^ 27
    AR933X_RESET_REG_BOOTSTRAP := 0xac
    AR934X_RESET_REG_BOOTSTRAP := 0xb0
    QCA953X_RESET_REG_BOOTSTRAP := 0xb0
    QCA955X_RESET_REG_BOOTSTRAP := 0xb0
    QCA956X_RESET_REG_BOOTSTRAP := 0xb0
    AR933X_BOOTSTRAP_EEPBUSY := 2 ^ 4
    AR933X_BOOTSTRAP_REF_CLK_40 := 2 ^ 0
    AR934X_BOOTSTRAP_REF_CLK_40 := 2 ^ 4
    QCA953X_BOOTSTRAP_REF_CLK_40 := 2 ^ 4
    QCA955X_BOOTSTRAP_REF_CLK_40 := 2 ^ 4
    QCA956X_BOOTSTRAP_REF_CLK_40 := 2 ^ 2
    AR5416_AR9100_DEVID := 0x000b
    AR9300_DEVID_AR9330 := 0x0035
    AR9300_DEVID_AR9340 := 0x0031
    AR9300_DEVID_AR953X := 0x003d
    AR9300_DEVID_QCA955X := 0x0038
    AR9300_DEVID_QCA956X := 0x003f }

/-- The calls of `j` loop iterations of `ar933x_wmac_reset` that found the chip busy and went on:
a register read followed by `udelay(10000)`. -/
def busyPolls (c : Regs) : Nat → List Event
  | 0 => []
  | j + 1 => Event.ath79_reset_rr c.AR933X_RESET_REG_BOOTSTRAP :: Event.udelay 10000
               :: busyPolls c j

/-- The WMAC activity bit is set in the value delivered by DDR read number `i` (from 0). -/
def ddrBusy (ddr : Nat → Nat) (i : Nat) : Prop :=
  u32 (ddr i) &&& QCA955X_DDR_CTL_CONFIG_ACT_WMAC ≠ 0

instance (c : Regs) (rr : Nat → Nat) (i : Nat) : Decidable (eepBusy c rr i) := by
  unfold eepBusy
  infer_instance

instance (ddr : Nat → Nat) (i : Nat) : Decidable (ddrBusy ddr i) := by
  unfold ddrBusy
  infer_instance

/-- The calls that acquire or release a resource of the probe, or try to. -/
def Event.isProbeStep : Event → Bool
  | .devm_ioremap_nocache _ _ _ => true
  | .ieee80211_alloc_hw _ => true
  | .request_irq _ _ => true
  | .ath9k_init_device _ _ => true
  | .free_irq _ => true
  | .ieee80211_free_hw => true
  | .ath9k_deinit_device => true
  | _ => false

/-- A list of calls that neither acquires nor releases a resource of the probe. -/
def neutral (es : List Event) : Prop :=
  es.all (fun e => !e.isProbeStep) = true

/-- The calls of `j` iterations of the drain loop of `qca955x_wmac_reset` that found the WMAC
active: a read of the DDR controller followed by `udelay(10)`. -/
def drainPolls : Nat → List Event
  | 0 => []
  | j + 1 => Event.raw_readl_ddr QCA955X_DDR_CTL_CONFIG :: Event.udelay 10 :: drainPolls j

/-! ## Concrete devices and kernels for test runs -/

/-- A device-tree node with the given compatible string and no optional property. -/
def sampleNode (compatible : String) : device_node :=
  { name := "wmac", compatible := compatible, label := none, led_pin := none,
    disable_2ghz := false, disable_5ghz := false, tx_gain_buffalo := false,
    mtd_cal_data := none }

/-- A platform device created from a device-tree node, with a register window and an
interrupt. -/
def sampleDevice (compatible : String) : platform_device :=
  { id := none, of_node := some (sampleNode compatible), platform_data := none,
    mem_res := some (0x18100000, 0x20000), irq_res := some 2, drvdata := none }

/-- A kernel built with `CONFIG_OF` and `CONFIG_MTD` in which every service succeeds, with the
given register tapes. -/
def sampleKernel (rr ddr : Nat → Nat) : Kernel :=
  { CONFIG_OF := true, CONFIG_MTD := true, regs := ath79Regs, rr := rr, ddr := ddr,
    ath79_soc_rev := 1, of_find_node_by_phandle := fun _ => none,
    get_mtd_device_nm := fun _ => none, sizeof_eeprom_data := 8,
    devm_kzalloc_ok := true, devm_ioremap_ok := true, alloc_hw_ok := true,
    request_irq_ret := 0, init_device_ret := 0, uninit_dev_id := 0 }

/-- The six compatible strings that the driver supports. -/
def supportedKeys : List String :=
  ["qca,ar9130-wmac", "qca,ar9330-wmac", "qca,ar9340-wmac", "qca,qca9530-wmac",
   "qca,qca9550-wmac", "qca,qca9560-wmac"]

/-- The four kinds of reset operation: none (a NULL pointer), simple pulse, polling pulse and
DDR drain followed by a pulse. -/
def resetKinds : List (Option IntFn) :=
  [none, some IntFn.ar913x_wmac_reset, some IntFn.ar933x_wmac_reset,
   some IntFn.qca955x_wmac_reset]

/-- A malformed "mtd-cal-data" reference: the property exists and either its size is not that
of two 32-bit cells, or its phandle is zero, or no node has that phandle, or the MTD device of
the target node cannot be obtained. -/
def malformedCalRef (k : Kernel) (np : device_node) : Prop :=
  ∃ list, np.mtd_cal_data = some list ∧
    (list.length ≠ 8 ∨ be32_to_cpup list 0 = 0 ∨
     k.of_find_node_by_phandle (be32_to_cpup list 0) = none ∨
     ∃ node, k.of_find_node_by_phandle (be32_to_cpup list 0) = some node ∧
       k.get_mtd_device_nm (mtdPartName node) = none)

/-- A register tape on which EEPBUSY is set for the first `n` reads and clear afterwards. -/
def busyFor (n : Nat) : Nat → Nat :=
  fun i => if i < n then 0x10 else 0

/-- A register tape on which every bit is set at every read. -/
def allOnes : Nat → Nat :=
  fun _ => 0xffffffff

/-- Every reference-clock constant of the headers is a non-zero 32-bit mask, as the `BIT(n)`
values of `ar71xx_regs.h` are. -/
def refClkMasksNonzero (c : Regs) : Prop :=
  u32 c.AR933X_BOOTSTRAP_REF_CLK_40 ≠ 0 ∧ u32 c.AR934X_BOOTSTRAP_REF_CLK_40 ≠ 0 ∧
  u32 c.QCA953X_BOOTSTRAP_REF_CLK_40 ≠ 0 ∧ u32 c.QCA955X_BOOTSTRAP_REF_CLK_40 ≠ 0 ∧
  u32 c.QCA956X_BOOTSTRAP_REF_CLK_40 ≠ 0

instance (c : Regs) : Decidable (refClkMasksNonzero c) := by
  unfold refClkMasksNonzero
  infer_instance

/-- A register tape on which no bit is set at any read. -/
def allZeros : Nat → Nat :=
  fun _ => 0

/-- Platform data with a four-byte calibration buffer. -/
def samplePdata : ath9k_platform_data :=
  { led_pin := 0, disable_2ghz := false, disable_5ghz := false, tx_gain_buffalo := false,
    is_clk_25mhz := false, external_reset := none, get_mac_revision := none,
    eeprom_data := [0, 0, 0, 0] }

/-- A node for the AR9340 WMAC whose "mtd-cal-data" property has one cell instead of two. -/
def badCalNode : device_node :=
  { sampleNode "qca,ar9340-wmac" with mtd_cal_data := some [0, 0, 0, 1] }

/-- A platform device created from `badCalNode`. -/
def badCalDevice : platform_device :=
  { sampleDevice "qca,ar9340-wmac" with of_node := some badCalNode }

/-- A kernel built with `CONFIG_OF` and without `CONFIG_MTD`. -/
def noMtdKernel : Kernel :=
  { sampleKernel allOnes allOnes with CONFIG_MTD := false }

/-- A kernel in which `ieee80211_alloc_hw` fails. -/
def noContextKernel : Kernel :=
  { sampleKernel allOnes allOnes with alloc_hw_ok := false }

/-- A kernel in which `request_irq` fails with `-EBUSY`. -/
def noIrqKernel : Kernel :=
  { sampleKernel allOnes allOnes with request_irq_ret := -16 }

/-- A kernel in which `ath9k_init_device` fails with `-EIO`. -/
def noInitKernel : Kernel :=
  { sampleKernel allOnes allOnes with init_device_ret := -5 }

/-- A kernel in which `devm_ioremap_nocache` fails. -/
def noMappingKernel : Kernel :=
  { sampleKernel allOnes allOnes with devm_ioremap_ok := false }

/-! ## Lemmas on the reset loops -/

theorem countRR_busyPolls (c : Regs) (j : Nat) :
    countRR c.AR933X_RESET_REG_BOOTSTRAP (busyPolls c j) = j := by
  induction j with
  | zero => simp [busyPolls, countRR]
  | succ j ih =>
    simp only [countRR] at ih
    simp [busyPolls, countRR, List.count_cons, ih]

theorem countUdelay_busyPolls (c : Regs) (j : Nat) :
    countUdelay 10000 (busyPolls c j) = j := by
  induction j with
  | zero => simp [busyPolls, countUdelay]
  | succ j ih =>
    simp only [countUdelay] at ih
    simp [busyPolls, countUdelay, List.count_cons, ih]

/-- The loop leaves through `return 0` at the first read that finds EEPBUSY clear, provided that
read is among the first `retries + 1` ones. -/
theorem ar933x_loop_clear (c : Regs) (rr : Nat → Nat) :
    ∀ (retries j : Nat) (pos : HwPos), j ≤ retries →
      (∀ i, i < j → eepBusy c rr (pos.rr + i)) → ¬ eepBusy c rr (pos.rr + j) →
      (ar933x_wmac_reset_loop c rr retries pos).ret = some 0 ∧
      (ar933x_wmac_reset_loop c rr retries pos).pos = { pos with rr := pos.rr + j + 1 } ∧
      (ar933x_wmac_reset_loop c rr retries pos).events
        = busyPolls c j ++ [Event.ath79_reset_rr c.AR933X_RESET_REG_BOOTSTRAP] := by
  intro retries
  induction retries with
  | zero =>
    intro j pos hj _ hclear
    have hj0 : j = 0 := by omega
    subst hj0
    have h0 : u32 (rr pos.rr) &&& c.AR933X_BOOTSTRAP_EEPBUSY = 0 := by
      simpa [eepBusy] using hclear
    simp [ar933x_wmac_reset_loop, h0, busyPolls]
  | succ n ih =>
    intro j pos hj hbusy hclear
    cases j with
    | zero =>
      have h0 : u32 (rr pos.rr) &&& c.AR933X_BOOTSTRAP_EEPBUSY = 0 := by
        simpa [eepBusy] using hclear
      simp [ar933x_wmac_reset_loop, h0, busyPolls]
    | succ j =>
      have h0 : ¬ (u32 (rr pos.rr) &&& c.AR933X_BOOTSTRAP_EEPBUSY = 0) := by
        simpa [eepBusy] using hbusy 0 (by omega)
      have hb : ∀ i, i < j → eepBusy c rr (pos.rr + 1 + i) := by
        intro i hi
        have := hbusy (i + 1) (by omega)
        rwa [show pos.rr + (i + 1) = pos.rr + 1 + i by omega] at this
      have hc : ¬ eepBusy c rr (pos.rr + 1 + j) := by
        rwa [show pos.rr + (j + 1) = pos.rr + 1 + j by omega] at hclear
      obtain ⟨h1, h2, h3⟩ := ih j { pos with rr := pos.rr + 1 } (by omega) hb hc
      simp only [ar933x_wmac_reset_loop, h0, if_false]
      refine ⟨h1, ?_, ?_⟩
      · rw [h2]; simp; omega
      · rw [h3]; simp [busyPolls]

/-- The loop leaves through `break` after `retries + 1` reads when all of them find EEPBUSY
set. -/
theorem ar933x_loop_busy (c : Regs) (rr : Nat → Nat) :
    ∀ (retries : Nat) (pos : HwPos),
      (∀ i, i ≤ retries → eepBusy c rr (pos.rr + i)) →
      (ar933x_wmac_reset_loop c rr retries pos).ret = none ∧
      (ar933x_wmac_reset_loop c rr retries pos).pos = { pos with rr := pos.rr + retries + 1 } ∧
      (ar933x_wmac_reset_loop c rr retries pos).events
        = busyPolls c retries ++ [Event.ath79_reset_rr c.AR933X_RESET_REG_BOOTSTRAP] := by
  intro retries
  induction retries with
  | zero =>
    intro pos hbusy
    have h0 : ¬ (u32 (rr pos.rr) &&& c.AR933X_BOOTSTRAP_EEPBUSY = 0) := by
      simpa [eepBusy] using hbusy 0 (by omega)
    simp [ar933x_wmac_reset_loop, h0, busyPolls]
  | succ n ih =>
    intro pos hbusy
    have h0 : ¬ (u32 (rr pos.rr) &&& c.AR933X_BOOTSTRAP_EEPBUSY = 0) := by
      simpa [eepBusy] using hbusy 0 (by omega)
    have hb : ∀ i, i ≤ n → eepBusy c rr (pos.rr + 1 + i) := by
      intro i hi
      have := hbusy (i + 1) (by omega)
      rwa [show pos.rr + (i + 1) = pos.rr + 1 + i by omega] at this
    obtain ⟨h1, h2, h3⟩ := ih { pos with rr := pos.rr + 1 } hb
    simp only [ar933x_wmac_reset_loop, h0, if_false]
    refine ⟨h1, ?_, ?_⟩
    · rw [h2]; simp; omega
    · rw [h3]; simp [busyPolls]

/-- Behaviour of `ar933x_wmac_reset` when read number `k` is the first to find EEPBUSY clear,
for `k` up to `retries + 1 = 21`. -/
theorem ar933x_reset_clear (c : Regs) (rr : Nat → Nat) (pos : HwPos) (k : Nat)
    (hk1 : 1 ≤ k) (hk : k ≤ 21)
    (hbusy : ∀ i, i + 1 < k → eepBusy c rr (pos.rr + i))
    (hclear : ¬ eepBusy c rr (pos.rr + (k - 1))) :
    (ar933x_wmac_reset c rr pos).ret = 0 ∧
    (ar933x_wmac_reset c rr pos).pos = { pos with rr := pos.rr + k } ∧
    (ar933x_wmac_reset c rr pos).events
      = [Event.ath79_device_reset_set c.AR933X_RESET_WMAC,
         Event.ath79_device_reset_clear c.AR933X_RESET_WMAC]
        ++ busyPolls c (k - 1) ++ [Event.ath79_reset_rr c.AR933X_RESET_REG_BOOTSTRAP] := by
  obtain ⟨h1, h2, h3⟩ := ar933x_loop_clear c rr 20 (k - 1) pos (by omega)
    (fun i hi => hbusy i (by omega)) hclear
  simp only [ar933x_wmac_reset, h1, h2, h3]
  refine ⟨trivial, ?_, by simp⟩
  simp; omega

/-- Behaviour of `ar933x_wmac_reset` when the first 21 reads all find EEPBUSY set. -/
theorem ar933x_reset_busy (c : Regs) (rr : Nat → Nat) (pos : HwPos)
    (hbusy : ∀ i, i ≤ 20 → eepBusy c rr (pos.rr + i)) :
    (ar933x_wmac_reset c rr pos).ret = -ETIMEDOUT ∧
    (ar933x_wmac_reset c rr pos).pos = { pos with rr := pos.rr + 21 } ∧
    (ar933x_wmac_reset c rr pos).events
      = [Event.ath79_device_reset_set c.AR933X_RESET_WMAC,
         Event.ath79_device_reset_clear c.AR933X_RESET_WMAC]
        ++ busyPolls c 20 ++ [Event.ath79_reset_rr c.AR933X_RESET_REG_BOOTSTRAP,
                              Event.pr_err Diag.wmac_reset_timed_out] := by
  obtain ⟨h1, h2, h3⟩ := ar933x_loop_busy c rr 20 pos hbusy
  simp only [ar933x_wmac_reset, h1, h2, h3]
  refine ⟨trivial, trivial, by simp⟩

/-- The drain loop with budget `n` makes `m` reads, `m ≤ n`: every read but the last finds the
WMAC active, and the loop stops early exactly at a read that finds it idle. -/
theorem qca955x_loop_spec (ddr : Nat → Nat) :
    ∀ (n : Nat) (pos : HwPos), ∃ m, m ≤ n ∧ (0 < n → 1 ≤ m) ∧
      (qca955x_wmac_reset_loop ddr n pos).pos = { pos with ddr := pos.ddr + m } ∧
      (∀ i, i + 1 < m → ddrBusy ddr (pos.ddr + i)) ∧
      ((¬ ddrBusy ddr (pos.ddr + (m - 1)) ∧ 1 ≤ m ∧
          (qca955x_wmac_reset_loop ddr n pos).events
            = drainPolls (m - 1) ++ [Event.raw_readl_ddr QCA955X_DDR_CTL_CONFIG]) ∨
       (m = n ∧ (∀ i, i < m → ddrBusy ddr (pos.ddr + i)) ∧
          (qca955x_wmac_reset_loop ddr n pos).events = drainPolls m)) := by
  intro n
  induction n with
  | zero =>
    intro pos
    exact ⟨0, le_refl 0, by omega, rfl, by intro i hi; omega,
      Or.inr ⟨rfl, by intro i hi; omega, rfl⟩⟩
  | succ n ih =>
    intro pos
    by_cases h0 : u32 (ddr pos.ddr) &&& QCA955X_DDR_CTL_CONFIG_ACT_WMAC = 0
    · refine ⟨1, by omega, by omega, ?_, by intro i hi; omega, Or.inl ⟨?_, le_refl 1, ?_⟩⟩
      · simp [qca955x_wmac_reset_loop, h0]
      · simpa [ddrBusy] using h0
      · simp [qca955x_wmac_reset_loop, h0, drainPolls]
    · obtain ⟨m, hm, _, hpos, hb, hcase⟩ := ih { pos with ddr := pos.ddr + 1 }
      have hb0 : ddrBusy ddr (pos.ddr + 0) := by simpa [ddrBusy] using h0
      have hshift : ∀ i, pos.ddr + 1 + i = pos.ddr + (i + 1) := by intro i; omega
      simp only [hshift] at hb hcase
      refine ⟨m + 1, by omega, by omega, ?_, ?_, ?_⟩
      · simp only [qca955x_wmac_reset_loop, h0, if_false, hpos]
        simp; omega
      · intro i hi
        cases i with
        | zero => exact hb0
        | succ i => exact hb i (by omega)
      · rcases hcase with ⟨hc, h1, hev⟩ | ⟨hmn, hall, hev⟩
        · left
          refine ⟨?_, by omega, ?_⟩
          · have : m - 1 + 1 = m + 1 - 1 := by omega
            rwa [this] at hc
          · simp only [qca955x_wmac_reset_loop, h0, if_false, hev]
            obtain ⟨m1, rfl⟩ : ∃ m1, m = m1 + 1 := ⟨m - 1, by omega⟩
            simp [drainPolls]
        · right
          refine ⟨by omega, ?_, ?_⟩
          · intro i hi
            cases i with
            | zero => exact hb0
            | succ i => exact hall i (by omega)
          · simp only [qca955x_wmac_reset_loop, h0, if_false, hev]
            simp [drainPolls]

theorem countDdr_drainPolls (j : Nat) : countDdr QCA955X_DDR_CTL_CONFIG (drainPolls j) = j := by
  induction j with
  | zero => simp [drainPolls, countDdr]
  | succ j ih =>
    simp only [countDdr] at ih
    simp [drainPolls, countDdr, List.count_cons, ih]

theorem drainPolls_mem (j : Nat) :
    ∀ e, e ∈ drainPolls j → e = Event.raw_readl_ddr QCA955X_DDR_CTL_CONFIG ∨ e = Event.udelay 10 := by
  induction j with
  | zero => simp [drainPolls]
  | succ j ih =>
    intro e he
    simp only [drainPolls, List.mem_cons] at he
    rcases he with h | h | h
    · exact Or.inl h
    · exact Or.inr h
    · exact ih e h

/-! ## Lemmas on resource accounting -/

theorem neutral_nil : neutral [] := by
  simp [neutral]

theorem neutral_append {a b : List Event} (ha : neutral a) (hb : neutral b) :
    neutral (a ++ b) := by
  simp only [neutral, List.all_append, Bool.and_eq_true] at *
  exact ⟨ha, hb⟩

theorem neutral_cons {e : Event} {es : List Event} (he : e.isProbeStep = false)
    (hes : neutral es) : neutral (e :: es) := by
  simp only [neutral, List.all_cons, Bool.and_eq_true] at *
  exact ⟨by simp [he], hes⟩

theorem neutral_mem {es : List Event} (h : neutral es) {e : Event} (he : e ∈ es) :
    e.isProbeStep = false := by
  simp only [neutral, List.all_eq_true] at h
  simpa using h e he

theorem acquires_of_not_step {e : Event} (h : e.isProbeStep = false) : e.acquires = none := by
  cases e <;> simp [Event.isProbeStep] at h <;> simp [Event.acquires]

theorem releases_of_not_step {e : Event} (h : e.isProbeStep = false) : e.releases = none := by
  cases e <;> simp [Event.isProbeStep] at h <;> simp [Event.releases]

theorem acquired_neutral {es : List Event} (h : neutral es) : acquired es = [] := by
  simp only [acquired, List.filterMap_eq_nil_iff]
  intro e he
  exact acquires_of_not_step (neutral_mem h he)

theorem released_neutral {es : List Event} (h : neutral es) : released es = [] := by
  simp only [released, List.filterMap_eq_nil_iff]
  intro e he
  exact releases_of_not_step (neutral_mem h he)

theorem acquired_append (a b : List Event) : acquired (a ++ b) = acquired a ++ acquired b := by
  simp [acquired]

theorem released_append (a b : List Event) : released (a ++ b) = released a ++ released b := by
  simp [released]

theorem neutral_ar933x_loop (c : Regs) (rr : Nat → Nat) :
    ∀ (n : Nat) (pos : HwPos), neutral (ar933x_wmac_reset_loop c rr n pos).events := by
  intro n
  induction n with
  | zero =>
    intro pos
    simp only [ar933x_wmac_reset_loop]
    split <;> simp [neutral, Event.isProbeStep]
  | succ n ih =>
    intro pos
    simp only [ar933x_wmac_reset_loop]
    split
    · simp [neutral, Event.isProbeStep]
    · exact neutral_cons rfl (neutral_cons rfl (ih _))

theorem neutral_qca955x_loop (ddr : Nat → Nat) :
    ∀ (n : Nat) (pos : HwPos), neutral (qca955x_wmac_reset_loop ddr n pos).events := by
  intro n
  induction n with
  | zero =>
    intro pos
    simp [qca955x_wmac_reset_loop, neutral]
  | succ n ih =>
    intro pos
    simp only [qca955x_wmac_reset_loop]
    split
    · simp [neutral, Event.isProbeStep]
    · exact neutral_cons rfl (neutral_cons rfl (ih _))

theorem neutral_call_IntFn (k : Kernel) (f : IntFn) (pos : HwPos) :
    neutral (call_IntFn k f pos).events := by
  cases f
  · simp [call_IntFn, ar913x_wmac_reset, neutral, Event.isProbeStep]
  · have hl := neutral_ar933x_loop k.regs k.rr 20 pos
    simp only [call_IntFn, ar933x_wmac_reset]
    split
    · exact neutral_append (by simp [neutral, Event.isProbeStep]) hl
    · exact neutral_append (neutral_append (by simp [neutral, Event.isProbeStep]) hl)
        (by simp [neutral, Event.isProbeStep])
  · have hl := neutral_qca955x_loop k.ddr 10 pos
    simp only [call_IntFn, qca955x_wmac_reset]
    exact neutral_append hl (by simp [neutral, Event.isProbeStep])
  · exact neutral_nil
  · exact neutral_nil

theorem neutral_of_wmac_reset (k : Kernel) (data : struct_of_ath_ahb_data)
    (pdata : ath9k_platform_data) (pos : HwPos) :
    neutral (of_wmac_reset k data pdata pos).events := by
  unfold of_wmac_reset
  split
  · exact neutral_call_IntFn k _ pos
  · exact neutral_nil

theorem neutral_of_clock_detect (rr : Nat → Nat) (data : struct_of_ath_ahb_data)
    (pdata : ath9k_platform_data) (pos : HwPos) :
    neutral (of_clock_detect rr data pdata pos).events := by
  unfold of_clock_detect
  split <;> simp [neutral, Event.isProbeStep]

theorem neutral_of_get_wifi_cal (k : Kernel) (np : device_node) (pdata : ath9k_platform_data) :
    neutral (of_get_wifi_cal k np pdata).events := by
  unfold of_get_wifi_cal
  dsimp only
  repeat' split
  all_goals simp [neutral, Event.isProbeStep]

/-- The value of `of_ath_ahb_probe` when it does not dereference NULL. -/
theorem of_ath_ahb_probe_some (k : Kernel) (pdev : platform_device)
    (pdata : ath9k_platform_data) (pos : HwPos) (o : OfResult)
    (h : of_ath_ahb_probe k pdev pdata pos = some o) :
    ∃ np m, pdev.of_node = some np ∧ of_match_device of_ath_ahb_match pdev.of_node = some m ∧
      o.ret = (of_ath_ahb_data k.regs m.2).dev_id ∧
      ∃ rst clk cal,
        rst = of_wmac_reset k (of_ath_ahb_data k.regs m.2) (of_read_properties np pdata) pos ∧
        clk = of_clock_detect k.rr (of_ath_ahb_data k.regs m.2) rst.pdata rst.pos ∧
        cal = of_get_wifi_cal k np
          { clk.pdata with get_mac_revision := (of_ath_ahb_data k.regs m.2).soc_revision } ∧
        o.pdata = cal.pdata ∧ o.pos = clk.pos ∧
        o.events = rst.events ++ clk.events ++ cal.events ++
          (if cal.ret ≠ 0 then [Event.dev_err Diag.failed_to_load_calibration] else []) := by
  unfold of_ath_ahb_probe at h
  split at h
  · rename_i np m hnp hm
    simp only [Option.some.injEq] at h
    subst h
    exact ⟨np, m, hnp, hm, rfl, _, _, _, rfl, rfl, rfl, rfl, rfl, rfl⟩
  · simp at h

theorem neutral_of_ath_ahb_probe (k : Kernel) (pdev : platform_device)
    (pdata : ath9k_platform_data) (pos : HwPos) (o : OfResult)
    (h : of_ath_ahb_probe k pdev pdata pos = some o) : neutral o.events := by
  obtain ⟨np, m, _, _, _, rst, clk, cal, hrst, hclk, hcal, _, _, hev⟩ :=
    of_ath_ahb_probe_some k pdev pdata pos o h
  rw [hev]
  refine neutral_append (neutral_append (neutral_append ?_ ?_) ?_) ?_
  · rw [hrst]; exact neutral_of_wmac_reset _ _ _ _
  · rw [hclk]; exact neutral_of_clock_detect _ _ _ _
  · rw [hcal]; exact neutral_of_get_wifi_cal _ _ _
  · by_cases hc : cal.ret ≠ 0
    · rw [if_pos hc]; simp [neutral, Event.isProbeStep]
    · rw [if_neg hc]; exact neutral_nil

/-! ## The paths of the probe -/

/-- The calls of the probe from the mapping of the registers to `platform_set_drvdata`. -/
theorem ath_ahb_probe_paths (k : Kernel) (pdev : platform_device) (pos : HwPos) :
    ∃ ev1, neutral ev1 ∧
      (((ath_ahb_probe k pdev pos).ret = some (-EINVAL) ∧
          (ath_ahb_probe k pdev pos).events = ev1 ++ [Event.dev_err Diag.no_platform_data]) ∨
       ((ath_ahb_probe k pdev pos).ret = some (- ENXIO) ∧
          (ath_ahb_probe k pdev pos).events = ev1 ++ [Event.dev_err Diag.no_memory_resource]) ∨
       (∃ s z, pdev.mem_res = some (s, z) ∧ k.devm_ioremap_ok = false ∧
          (ath_ahb_probe k pdev pos).ret = some (-ENOMEM) ∧
          (ath_ahb_probe k pdev pos).events
            = ev1 ++ [Event.devm_ioremap_nocache s z false, Event.dev_err Diag.ioremap_failed]) ∨
       (∃ s z, pdev.mem_res = some (s, z) ∧
          (ath_ahb_probe k pdev pos).ret = some (- ENXIO) ∧
          (ath_ahb_probe k pdev pos).events
            = ev1 ++ [Event.devm_ioremap_nocache s z true, Event.dev_err Diag.no_irq_resource]) ∨
       (∃ s z, pdev.mem_res = some (s, z) ∧ k.alloc_hw_ok = false ∧
          (ath_ahb_probe k pdev pos).ret = some (-ENOMEM) ∧
          (ath_ahb_probe k pdev pos).events
            = ev1 ++ [Event.devm_ioremap_nocache s z true, Event.ath9k_fill_chanctx_ops,
                      Event.ieee80211_alloc_hw false, Event.dev_err Diag.no_memory_for_hw]) ∨
       (∃ s z, pdev.mem_res = some (s, z) ∧
          (ath_ahb_probe k pdev pos).ret = none ∧
          (ath_ahb_probe k pdev pos).events
            = ev1 ++ [Event.devm_ioremap_nocache s z true, Event.ath9k_fill_chanctx_ops,
                      Event.ieee80211_alloc_hw true, Event.platform_set_drvdata]) ∨
       (∃ s z irq mid, pdev.mem_res = some (s, z) ∧ pdev.irq_res = some irq ∧ neutral mid ∧
          k.request_irq_ret ≠ 0 ∧
          (ath_ahb_probe k pdev pos).ret = some k.request_irq_ret ∧
          (ath_ahb_probe k pdev pos).events
            = ev1 ++ [Event.devm_ioremap_nocache s z true, Event.ath9k_fill_chanctx_ops,
                      Event.ieee80211_alloc_hw true, Event.platform_set_drvdata] ++ mid
                ++ [Event.request_irq irq k.request_irq_ret,
                    Event.dev_err Diag.request_irq_failed, Event.ieee80211_free_hw]) ∨
       (∃ s z irq mid d, pdev.mem_res = some (s, z) ∧ pdev.irq_res = some irq ∧ neutral mid ∧
          k.request_irq_ret = 0 ∧ k.init_device_ret ≠ 0 ∧
          (ath_ahb_probe k pdev pos).ret = some k.init_device_ret ∧
          (ath_ahb_probe k pdev pos).events
            = ev1 ++ [Event.devm_ioremap_nocache s z true, Event.ath9k_fill_chanctx_ops,
                      Event.ieee80211_alloc_hw true, Event.platform_set_drvdata] ++ mid
                ++ [Event.request_irq irq 0, Event.ath9k_init_device d k.init_device_ret,
                    Event.dev_err Diag.failed_to_initialize, Event.free_irq irq,
                    Event.ieee80211_free_hw]) ∨
       (∃ s z irq mid d, pdev.mem_res = some (s, z) ∧ pdev.irq_res = some irq ∧ neutral mid ∧
          k.request_irq_ret = 0 ∧ k.init_device_ret = 0 ∧
          (ath_ahb_probe k pdev pos).ret = some 0 ∧
          (ath_ahb_probe k pdev pos).pdev.drvdata = some { mem := s, irq := irq } ∧
          (ath_ahb_probe k pdev pos).events
            = ev1 ++ [Event.devm_ioremap_nocache s z true, Event.ath9k_fill_chanctx_ops,
                      Event.ieee80211_alloc_hw true, Event.platform_set_drvdata] ++ mid
                ++ [Event.request_irq irq 0, Event.ath9k_init_device d 0,
                    Event.ath9k_hw_name, Event.wiphy_info])) := by
  refine ⟨if (k.CONFIG_OF && pdev.of_node.isSome) = true
            then [Event.devm_kzalloc k.devm_kzalloc_ok] else [], ?_, ?_⟩
  · split <;> simp [neutral, Event.isProbeStep]
  · unfold ath_ahb_probe
    dsimp only
    rcases Bool.eq_false_or_eq_true (k.CONFIG_OF && pdev.of_node.isSome) with hof | hof <;>
      simp only [hof, if_true, if_false, Bool.false_eq_true] <;>
      (split
       · exact Or.inl ⟨rfl, rfl⟩
       · split
         · exact Or.inr (Or.inl ⟨rfl, rfl⟩)
         · rename_i s z hmem
           have hmem2 : pdev.mem_res = some (s, z) := hmem
           split
           · rename_i hio
             exact Or.inr (Or.inr (Or.inl ⟨s, z, hmem2, hio, rfl, rfl⟩))
           · split
             · exact Or.inr (Or.inr (Or.inr (Or.inl ⟨s, z, hmem2, rfl, rfl⟩)))
             · rename_i irq hirq
               have hirq2 : pdev.irq_res = some irq := hirq
               split
               · rename_i hal
                 exact Or.inr (Or.inr (Or.inr (Or.inr (Or.inl ⟨s, z, hmem2, hal, rfl, rfl⟩))))
               · split
                 · exact Or.inr (Or.inr (Or.inr (Or.inr (Or.inr (Or.inl ⟨s, z, hmem2, rfl, rfl⟩)))))
                 · rename_i o ho
                   have hmid : neutral o.events := by
                     split at ho
                     · exact neutral_of_ath_ahb_probe _ _ _ _ _ ho
                     · simp only [Option.some.injEq] at ho
                       subst ho
                       exact neutral_nil
                   split
                   · rename_i hreq
                     refine Or.inr (Or.inr (Or.inr (Or.inr (Or.inr (Or.inr (Or.inl
                       ⟨s, z, irq, o.events, hmem2, hirq2, hmid, hreq, rfl, ?_⟩))))))
                     simp
                   · rename_i hreq
                     have hreq0 : k.request_irq_ret = 0 := by simpa using hreq
                     split
                     · rename_i hini
                       refine Or.inr (Or.inr (Or.inr (Or.inr (Or.inr (Or.inr (Or.inr (Or.inl
                         ⟨s, z, irq, o.events, u16 o.ret, hmem2, hirq2, hmid, hreq0, hini, rfl,
                           ?_⟩)))))))
                       simp [hreq0]
                     · rename_i hini
                       have hini0 : k.init_device_ret = 0 := by simpa using hini
                       refine Or.inr (Or.inr (Or.inr (Or.inr (Or.inr (Or.inr (Or.inr (Or.inr
                         ⟨s, z, irq, o.events, u16 o.ret, hmem2, hirq2, hmid, hreq0, hini0, rfl,
                           rfl, ?_⟩)))))))
                       simp [hreq0, hini0])

/-! ## Lemmas on the device-tree part of the probe -/

/-- The value of `of_ath_ahb_probe` for a node that matches an entry of the table. -/
theorem of_ath_ahb_probe_eq (k : Kernel) (pdev : platform_device)
    (pdata : ath9k_platform_data) (pos : HwPos) (np : device_node) (m : String × Variant)
    (hnp : pdev.of_node = some np)
    (hm : of_match_device of_ath_ahb_match (some np) = some m) :
    ∃ o, of_ath_ahb_probe k pdev pdata pos = some o ∧
      o.ret = (of_ath_ahb_data k.regs m.2).dev_id ∧
      ∃ rst clk cal,
        rst = of_wmac_reset k (of_ath_ahb_data k.regs m.2) (of_read_properties np pdata) pos ∧
        clk = of_clock_detect k.rr (of_ath_ahb_data k.regs m.2) rst.pdata rst.pos ∧
        cal = of_get_wifi_cal k np
          { clk.pdata with get_mac_revision := (of_ath_ahb_data k.regs m.2).soc_revision } ∧
        o.pdata = cal.pdata ∧ o.pos = clk.pos ∧
        o.events = rst.events ++ clk.events ++ cal.events ++
          (if cal.ret ≠ 0 then [Event.dev_err Diag.failed_to_load_calibration] else []) := by
  unfold of_ath_ahb_probe
  simp only [hnp, hm]
  exact ⟨_, rfl, rfl, _, _, _, rfl, rfl, rfl, rfl, rfl, rfl⟩

theorem of_wmac_reset_eeprom (k : Kernel) (data : struct_of_ath_ahb_data)
    (pdata : ath9k_platform_data) (pos : HwPos) :
    (of_wmac_reset k data pdata pos).pdata.eeprom_data = pdata.eeprom_data := by
  unfold of_wmac_reset
  split <;> rfl

theorem of_clock_detect_eeprom (rr : Nat → Nat) (data : struct_of_ath_ahb_data)
    (pdata : ath9k_platform_data) (pos : HwPos) :
    (of_clock_detect rr data pdata pos).pdata.eeprom_data = pdata.eeprom_data := by
  unfold of_clock_detect
  split
  · dsimp only
    split <;> rfl
  · rfl

/-- A malformed calibration reference makes `of_get_wifi_cal` return 1 without touching the
platform data, in a build with `CONFIG_MTD`. -/
theorem of_get_wifi_cal_malformed (k : Kernel) (np : device_node) (pdata : ath9k_platform_data)
    (hmtd : k.CONFIG_MTD = true) (h : malformedCalRef k np) :
    (of_get_wifi_cal k np pdata).ret = 1 ∧ (of_get_wifi_cal k np pdata).pdata = pdata := by
  obtain ⟨list, hl, hcase⟩ := h
  unfold of_get_wifi_cal
  simp only [hmtd, if_true, hl]
  by_cases hlen : list.length ≠ 2 * 4
  · simp only [if_pos hlen]
    exact ⟨trivial, trivial⟩
  · simp only [if_neg hlen]
    by_cases hph : be32_to_cpup list 0 ≠ 0
    · simp only [if_pos hph]
      rcases hcase with h | h | h | ⟨node, hnode, hdev⟩
      · exact absurd h (by omega)
      · exact absurd h hph
      · simp only [h]
        exact ⟨trivial, trivial⟩
      · simp only [hnode, hdev]
        exact ⟨trivial, trivial⟩
    · simp only [if_neg hph]
      exact ⟨trivial, trivial⟩

/-- Without `CONFIG_MTD`, `of_get_wifi_cal` returns 0 and does nothing. -/
theorem of_get_wifi_cal_no_mtd (k : Kernel) (np : device_node) (pdata : ath9k_platform_data)
    (hmtd : k.CONFIG_MTD = false) :
    (of_get_wifi_cal k np pdata).ret = 0 ∧ (of_get_wifi_cal k np pdata).pdata = pdata := by
  unfold of_get_wifi_cal
  simp only [hmtd, Bool.false_eq_true, if_false]
  exact ⟨trivial, trivial⟩

/-! ## Lemmas on held resources -/

theorem heldStep_neutral (h : List Resource) {e : Event} (he : e.isProbeStep = false) :
    heldStep h e = h := by
  simp [heldStep, acquires_of_not_step he, releases_of_not_step he]

theorem foldl_heldStep_neutral {es : List Event} (hes : neutral es) :
    ∀ h : List Resource, es.foldl heldStep h = h := by
  induction es with
  | nil => intro h; rfl
  | cons e es ih =>
    intro h
    have he : e.isProbeStep = false := neutral_mem hes (List.mem_cons_self _ _)
    have hrest : neutral es := by
      simp only [neutral, List.all_cons, Bool.and_eq_true] at hes
      exact hes.2
    simp only [List.foldl_cons, heldStep_neutral h he]
    exact ih hrest h

/-- The calls and the final state of a probe that returns 0. -/
theorem ath_ahb_probe_success (k : Kernel) (pdev : platform_device) (pos : HwPos)
    (h : (ath_ahb_probe k pdev pos).ret = some 0) :
    ∃ ev1 s z irq mid d, neutral ev1 ∧ neutral mid ∧
      pdev.mem_res = some (s, z) ∧ pdev.irq_res = some irq ∧
      (ath_ahb_probe k pdev pos).pdev.drvdata = some { mem := s, irq := irq } ∧
      (ath_ahb_probe k pdev pos).events
        = ev1 ++ [Event.devm_ioremap_nocache s z true, Event.ath9k_fill_chanctx_ops,
                  Event.ieee80211_alloc_hw true, Event.platform_set_drvdata] ++ mid
            ++ [Event.request_irq irq 0, Event.ath9k_init_device d 0,
                Event.ath9k_hw_name, Event.wiphy_info] := by
  obtain ⟨ev1, hev1, hp⟩ := ath_ahb_probe_paths k pdev pos
  rcases hp with ⟨hr, _⟩ | ⟨hr, _⟩ | ⟨s, z, _, _, hr, _⟩ | ⟨s, z, _, hr, _⟩ |
    ⟨s, z, _, _, hr, _⟩ | ⟨s, z, _, hr, _⟩ | ⟨s, z, irq, mid, _, _, _, hne, hr, _⟩ |
    ⟨s, z, irq, mid, d, _, _, _, _, hne, hr, _⟩ |
    ⟨s, z, irq, mid, d, hmem, hirq, hmid, _, _, _, hdrv, hev⟩
  · rw [hr] at h; simp [EINVAL] at h
  · rw [hr] at h; simp [ ENXIO] at h
  · rw [hr] at h; simp [ENOMEM] at h
  · rw [hr] at h; simp [ ENXIO] at h
  · rw [hr] at h; simp [ENOMEM] at h
  · rw [hr] at h; simp at h
  · rw [hr] at h
    simp only [Option.some.injEq] at h
    exact absurd h hne
  · rw [hr] at h
    simp only [Option.some.injEq] at h
    exact absurd h hne
  · exact ⟨ev1, s, z, irq, mid, d, hev1, hmid, hmem, hirq, hdrv, hev⟩

/-- The resources acquired by a probe that returns 0, in the order of their acquisition. -/
theorem ath_ahb_probe_success_acquired (k : Kernel) (pdev : platform_device) (pos : HwPos)
    (h : (ath_ahb_probe k pdev pos).ret = some 0) :
    ∃ s z irq, pdev.mem_res = some (s, z) ∧ pdev.irq_res = some irq ∧
      (ath_ahb_probe k pdev pos).pdev.drvdata = some { mem := s, irq := irq } ∧
      acquired (ath_ahb_probe k pdev pos).events
        = [Resource.mapping, Resource.context, Resource.irq_line irq, Resource.device] ∧
      released (ath_ahb_probe k pdev pos).events = [] ∧
      held (ath_ahb_probe k pdev pos).events
        = [Resource.mapping, Resource.context, Resource.irq_line irq, Resource.device] := by
  obtain ⟨ev1, s, z, irq, mid, d, hev1, hmid, hmem, hirq, hdrv, hev⟩ :=
    ath_ahb_probe_success k pdev pos h
  refine ⟨s, z, irq, hmem, hirq, hdrv, ?_, ?_, ?_⟩
  · rw [hev]
    simp only [acquired_append, acquired_neutral hev1, acquired_neutral hmid]
    simp [acquired, Event.acquires]
  · rw [hev]
    simp only [released_append, released_neutral hev1, released_neutral hmid]
    simp [released, Event.releases]
  · rw [hev]
    simp only [held, List.foldl_append, foldl_heldStep_neutral hev1]
    simp only [List.foldl_cons, List.foldl_nil, foldl_heldStep_neutral hmid]
    simp [heldStep, Event.acquires, Event.releases]

theorem not_mem_neutral {es : List Event} (h : neutral es) {e : Event}
    (he : e.isProbeStep = true) : e ∉ es := by
  intro hmem
  rw [neutral_mem h hmem] at he
  exact Bool.noConfusion he

/-- The probe when `devm_ioremap_nocache` fails. -/
theorem ath_ahb_probe_ioremap_fails (k : Kernel) (pdev : platform_device) (pos : HwPos)
    (s z : Nat)
    (hm : Event.devm_ioremap_nocache s z false ∈ (ath_ahb_probe k pdev pos).events) :
    (ath_ahb_probe k pdev pos).ret = some (-ENOMEM) ∧
    acquired (ath_ahb_probe k pdev pos).events = [] ∧
    released (ath_ahb_probe k pdev pos).events = [] ∧
    held (ath_ahb_probe k pdev pos).events = [] := by
  have hret : True := trivial
  obtain ⟨ev1, hev1, hp⟩ := ath_ahb_probe_paths k pdev pos
  have m1 := @not_mem_neutral ev1 hev1
  rcases hp with ⟨hr, hev⟩ | ⟨hr, hev⟩ | ⟨s1, z1, _, _, hr, hev⟩ | ⟨s1, z1, _, hr, hev⟩ |
    ⟨s1, z1, _, _, hr, hev⟩ | ⟨s1, z1, _, hr, hev⟩ |
    ⟨s1, z1, irq1, mid, _, hirq, hmid, hne, hr, hev⟩ |
    ⟨s1, z1, irq1, mid, d1, _, hirq, hmid, hreq, hne, hr, hev⟩ |
    ⟨s1, z1, irq1, mid, d1, _, hirq, hmid, hreq, hini, hr, _, hev⟩
  all_goals rw [hev] at hm
  all_goals first
    | (have m2 := @not_mem_neutral mid hmid
       simp [m1, m2, Event.isProbeStep, hret] at hm)
    | simp [m1, Event.isProbeStep, hret] at hm
  refine ⟨hr, ?_, ?_, ?_⟩ <;> rw [hev]
  · simp only [acquired_append, acquired_neutral hev1]
    simp [acquired, Event.acquires]
  · simp only [released_append, released_neutral hev1]
    simp [released, Event.releases]
  · simp [held, List.foldl_append, foldl_heldStep_neutral hev1, heldStep, Event.acquires,
      Event.releases]

/-- The probe when `ieee80211_alloc_hw` fails. -/
theorem ath_ahb_probe_alloc_hw_fails (k : Kernel) (pdev : platform_device) (pos : HwPos)
    (hm : Event.ieee80211_alloc_hw false ∈ (ath_ahb_probe k pdev pos).events) :
    (ath_ahb_probe k pdev pos).ret = some (-ENOMEM) ∧
    acquired (ath_ahb_probe k pdev pos).events = [Resource.mapping] ∧
    released (ath_ahb_probe k pdev pos).events = [] ∧
    held (ath_ahb_probe k pdev pos).events = [Resource.mapping] := by
  have hret : True := trivial
  obtain ⟨ev1, hev1, hp⟩ := ath_ahb_probe_paths k pdev pos
  have m1 := @not_mem_neutral ev1 hev1
  rcases hp with ⟨hr, hev⟩ | ⟨hr, hev⟩ | ⟨s1, z1, _, _, hr, hev⟩ | ⟨s1, z1, _, hr, hev⟩ |
    ⟨s1, z1, _, _, hr, hev⟩ | ⟨s1, z1, _, hr, hev⟩ |
    ⟨s1, z1, irq1, mid, _, hirq, hmid, hne, hr, hev⟩ |
    ⟨s1, z1, irq1, mid, d1, _, hirq, hmid, hreq, hne, hr, hev⟩ |
    ⟨s1, z1, irq1, mid, d1, _, hirq, hmid, hreq, hini, hr, _, hev⟩
  all_goals rw [hev] at hm
  all_goals first
    | (have m2 := @not_mem_neutral mid hmid
       simp [m1, m2, Event.isProbeStep, hret] at hm)
    | simp [m1, Event.isProbeStep, hret] at hm
  refine ⟨hr, ?_, ?_, ?_⟩ <;> rw [hev]
  · simp only [acquired_append, acquired_neutral hev1]
    simp [acquired, Event.acquires]
  · simp only [released_append, released_neutral hev1]
    simp [released, Event.releases]
  · simp [held, List.foldl_append, foldl_heldStep_neutral hev1, heldStep, Event.acquires,
      Event.releases]

/-- The probe when `request_irq` fails. -/
theorem ath_ahb_probe_request_irq_fails (k : Kernel) (pdev : platform_device) (pos : HwPos)
    (irq : Nat) (ret : Int) (hret : ret ≠ 0)
    (hm : Event.request_irq irq ret ∈ (ath_ahb_probe k pdev pos).events) :
    (ath_ahb_probe k pdev pos).ret = some ret ∧
    acquired (ath_ahb_probe k pdev pos).events = [Resource.mapping, Resource.context] ∧
    released (ath_ahb_probe k pdev pos).events = [Resource.context] ∧
    held (ath_ahb_probe k pdev pos).events = [Resource.mapping] := by
  obtain ⟨ev1, hev1, hp⟩ := ath_ahb_probe_paths k pdev pos
  have m1 := @not_mem_neutral ev1 hev1
  rcases hp with ⟨hr, hev⟩ | ⟨hr, hev⟩ | ⟨s1, z1, _, _, hr, hev⟩ | ⟨s1, z1, _, hr, hev⟩ |
    ⟨s1, z1, _, _, hr, hev⟩ | ⟨s1, z1, _, hr, hev⟩ |
    ⟨s1, z1, irq1, mid, _, hirq, hmid, hne, hr, hev⟩ |
    ⟨s1, z1, irq1, mid, d1, _, hirq, hmid, hreq, hne, hr, hev⟩ |
    ⟨s1, z1, irq1, mid, d1, _, hirq, hmid, hreq, hini, hr, _, hev⟩
  all_goals rw [hev] at hm
  all_goals first
    | (have m2 := @not_mem_neutral mid hmid
       simp [m1, m2, Event.isProbeStep, hret] at hm)
    | simp [m1, Event.isProbeStep, hret] at hm
  obtain ⟨_, hret2⟩ := hm
  subst hret2
  refine ⟨hr, ?_, ?_, ?_⟩ <;> rw [hev]
  · simp only [acquired_append, acquired_neutral hev1, acquired_neutral hmid]
    simp [acquired, Event.acquires, hne]
  · simp only [released_append, released_neutral hev1, released_neutral hmid]
    simp [released, Event.releases]
  · simp only [held, List.foldl_append, foldl_heldStep_neutral hev1]
    simp only [List.foldl_cons, List.foldl_nil, foldl_heldStep_neutral hmid]
    simp [heldStep, Event.acquires, Event.releases, hne]

/-- The probe when `ath9k_init_device` fails. -/
theorem ath_ahb_probe_init_device_fails (k : Kernel) (pdev : platform_device) (pos : HwPos)
    (d : Nat) (ret : Int) (hret : ret ≠ 0)
    (hm : Event.ath9k_init_device d ret ∈ (ath_ahb_probe k pdev pos).events) :
    (ath_ahb_probe k pdev pos).ret = some ret ∧
    ∃ irq, pdev.irq_res = some irq ∧
      acquired (ath_ahb_probe k pdev pos).events
        = [Resource.mapping, Resource.context, Resource.irq_line irq] ∧
      released (ath_ahb_probe k pdev pos).events
        = [Resource.irq_line irq, Resource.context] ∧
      held (ath_ahb_probe k pdev pos).events = [Resource.mapping] := by
  obtain ⟨ev1, hev1, hp⟩ := ath_ahb_probe_paths k pdev pos
  have m1 := @not_mem_neutral ev1 hev1
  rcases hp with ⟨hr, hev⟩ | ⟨hr, hev⟩ | ⟨s1, z1, _, _, hr, hev⟩ | ⟨s1, z1, _, hr, hev⟩ |
    ⟨s1, z1, _, _, hr, hev⟩ | ⟨s1, z1, _, hr, hev⟩ |
    ⟨s1, z1, irq1, mid, _, hirq, hmid, hne, hr, hev⟩ |
    ⟨s1, z1, irq1, mid, d1, _, hirq, hmid, hreq, hne, hr, hev⟩ |
    ⟨s1, z1, irq1, mid, d1, _, hirq, hmid, hreq, hini, hr, _, hev⟩
  all_goals rw [hev] at hm
  all_goals first
    | (have m2 := @not_mem_neutral mid hmid
       simp [m1, m2, Event.isProbeStep, hret] at hm)
    | simp [m1, Event.isProbeStep, hret] at hm
  obtain ⟨_, hret2⟩ := hm
  subst hret2
  refine ⟨hr, irq1, hirq, ?_, ?_, ?_⟩ <;> rw [hev]
  · simp only [acquired_append, acquired_neutral hev1, acquired_neutral hmid]
    simp [acquired, Event.acquires, hne]
  · simp only [released_append, released_neutral hev1, released_neutral hmid]
    simp [released, Event.releases]
  · simp only [held, List.foldl_append, foldl_heldStep_neutral hev1]
    simp only [List.foldl_cons, List.foldl_nil, foldl_heldStep_neutral hmid]
    simp [heldStep, Event.acquires, Event.releases, hne]

/-- The run of the probe for a device-tree device when every step up to the allocation of the
device context succeeds: the device-tree part is entered with the context allocated, and the
return value is decided by `request_irq` and `ath9k_init_device` alone. -/
theorem ath_ahb_probe_of_device (k : Kernel) (pdev : platform_device) (pos : HwPos)
    (np : device_node) (m : String × Variant) (s z irq : Nat)
    (hof : k.CONFIG_OF = true) (hnp : pdev.of_node = some np)
    (hm : of_match_device of_ath_ahb_match (some np) = some m)
    (hkz : k.devm_kzalloc_ok = true) (hmem : pdev.mem_res = some (s, z))
    (hio : k.devm_ioremap_ok = true) (hirq : pdev.irq_res = some irq)
    (hal : k.alloc_hw_ok = true) :
    ∃ o pdev2, of_ath_ahb_probe k pdev2 (kzalloc_platform_data k) pos = some o ∧
      pdev2.of_node = some np ∧
      (ath_ahb_probe k pdev pos).ret
        = some (if k.request_irq_ret ≠ 0 then k.request_irq_ret else k.init_device_ret) ∧
      (ath_ahb_probe k pdev pos).events
        = [Event.devm_kzalloc true, Event.devm_ioremap_nocache s z true,
           Event.ath9k_fill_chanctx_ops, Event.ieee80211_alloc_hw true,
           Event.platform_set_drvdata] ++ o.events
          ++ [Event.request_irq irq k.request_irq_ret]
          ++ (if k.request_irq_ret ≠ 0 then
                [Event.dev_err Diag.request_irq_failed, Event.ieee80211_free_hw]
              else
                [Event.ath9k_init_device (u16 o.ret) k.init_device_ret]
                ++ (if k.init_device_ret ≠ 0 then
                      [Event.dev_err Diag.failed_to_initialize, Event.free_irq irq,
                       Event.ieee80211_free_hw]
                    else [Event.ath9k_hw_name, Event.wiphy_info])) := by
  obtain ⟨o, ho, _⟩ := of_ath_ahb_probe_eq k
    { id := pdev.id, of_node := some np, platform_data := some (kzalloc_platform_data k),
      mem_res := some (s, z), irq_res := some irq, drvdata := some { mem := s, irq := irq } }
    (kzalloc_platform_data k) pos np m rfl hm
  refine ⟨o, _, ho, rfl, ?_⟩
  unfold ath_ahb_probe
  simp only [hof, hnp, hkz, hmem, hio, hirq, hal, Option.isSome_some, Bool.and_self, if_true,
    Bool.true_eq_false, if_false, ho]
  by_cases hreq : k.request_irq_ret ≠ 0
  · simp only [if_pos hreq]
    exact ⟨trivial, by simp⟩
  · simp only [if_neg hreq]
    by_cases hini : k.init_device_ret ≠ 0
    · simp only [if_pos hini]
      exact ⟨trivial, by simp⟩
    · simp only [if_neg hini]
      have h0 : k.init_device_ret = 0 := by simpa using hini
      exact ⟨by simp [h0], by simp⟩

/-! ## Lemmas on clock detection -/

/-- The two cases of the clock detection, for an arbitrary descriptor value. -/
theorem of_clock_detect_spec (rr : Nat → Nat) (data : struct_of_ath_ahb_data)
    (pdata : ath9k_platform_data) (pos : HwPos) :
    ((data.bootstrap_reg = 0 ∨ data.bootstrap_ref = 0) →
      (of_clock_detect rr data pdata pos).events = [] ∧
      (of_clock_detect rr data pdata pos).pos = pos ∧
      (of_clock_detect rr data pdata pos).pdata = pdata) ∧
    (data.bootstrap_reg ≠ 0 → data.bootstrap_ref ≠ 0 →
      (of_clock_detect rr data pdata pos).events = [Event.ath79_reset_rr data.bootstrap_reg] ∧
      countRR data.bootstrap_reg (of_clock_detect rr data pdata pos).events = 1 ∧
      (of_clock_detect rr data pdata pos).pos = { pos with rr := pos.rr + 1 } ∧
      (of_clock_detect rr data pdata pos).pdata
        = { pdata with is_clk_25mhz := decide (u32 (rr pos.rr) &&& data.bootstrap_ref = 0) } ∧
      (u32 (rr pos.rr) &&& data.bootstrap_ref ≠ 0 →
        (of_clock_detect rr data pdata pos).pdata.is_clk_25mhz = false) ∧
      (u32 (rr pos.rr) &&& data.bootstrap_ref = 0 →
        (of_clock_detect rr data pdata pos).pdata.is_clk_25mhz = true)) := by
  constructor
  · intro h
    have hc : ¬ (data.bootstrap_reg ≠ 0 ∧ data.bootstrap_ref ≠ 0) := by
      rcases h with h | h <;> simp [h]
    simp only [of_clock_detect, if_neg hc]
    exact ⟨trivial, trivial, trivial⟩
  · intro h1 h2
    have hc : data.bootstrap_reg ≠ 0 ∧ data.bootstrap_ref ≠ 0 := ⟨h1, h2⟩
    simp only [of_clock_detect, if_pos hc]
    by_cases hv : u32 (rr pos.rr) &&& data.bootstrap_ref = 0
    · simp [hv, countRR]
    · simp [hv, countRR]

/-- In the table, a descriptor with a bootstrap register has a non-zero reference-clock bitmask
as soon as the header constants for the bitmasks are non-zero. -/
theorem of_ath_ahb_data_ref_ne_zero (c : Regs) (hc : refClkMasksNonzero c) (v : Variant)
    (h : (of_ath_ahb_data c v).bootstrap_reg ≠ 0) : (of_ath_ahb_data c v).bootstrap_ref ≠ 0 := by
  obtain ⟨h1, h2, h3, h4, h5⟩ := hc
  cases v
  · exact absurd rfl h
  · exact h1
  · exact h2
  · exact h3
  · exact h4
  · exact h5

/-! ## The claims -/

/-- C1, as stated, fails: with EEPBUSY set at every read, `ar933x_wmac_reset` returns
`-ETIMEDOUT` after 21 reads of the bootstrap register, not 20. -/
theorem C1_timeout_reads_counterexample :
    (∀ i, eepBusy ath79Regs allOnes i) ∧
    (ar933x_wmac_reset ath79Regs allOnes ⟨0, 0⟩).ret = -ETIMEDOUT ∧
    countRR ath79Regs.AR933X_RESET_REG_BOOTSTRAP
      (ar933x_wmac_reset ath79Regs allOnes ⟨0, 0⟩).events = 21 ∧
    countRR ath79Regs.AR933X_RESET_REG_BOOTSTRAP
      (ar933x_wmac_reset ath79Regs allOnes ⟨0, 0⟩).events ≠ 20 := by
  refine ⟨fun i => ?_, by decide, by decide, by decide⟩
  show u32 0xffffffff &&& 2 ^ 4 ≠ 0
  decide

/-- C1, amended: for every `k` with `1 ≤ k ≤ 20`, if EEPBUSY is set on reads `1..k-1` and clear
on read `k`, `ar933x_wmac_reset` pulses the reset line, returns 0 after exactly `k` reads of the
bootstrap register and `k - 1` delays of 10 ms; if EEPBUSY is set on every read, it returns
`-ETIMEDOUT` after exactly 21 reads and 20 delays. -/
theorem C1_ar933x_wmac_reset_polls (c : Regs) (rr : Nat → Nat) (pos : HwPos) :
    (∀ k, 1 ≤ k → k ≤ 20 →
      (∀ i, i + 1 < k → eepBusy c rr (pos.rr + i)) → ¬ eepBusy c rr (pos.rr + (k - 1)) →
      (ar933x_wmac_reset c rr pos).ret = 0 ∧
      (ar933x_wmac_reset c rr pos).pos.rr = pos.rr + k ∧
      countRR c.AR933X_RESET_REG_BOOTSTRAP (ar933x_wmac_reset c rr pos).events = k ∧
      countUdelay 10000 (ar933x_wmac_reset c rr pos).events = k - 1 ∧
      (ar933x_wmac_reset c rr pos).events
        = [Event.ath79_device_reset_set c.AR933X_RESET_WMAC,
           Event.ath79_device_reset_clear c.AR933X_RESET_WMAC]
          ++ busyPolls c (k - 1) ++ [Event.ath79_reset_rr c.AR933X_RESET_REG_BOOTSTRAP]) ∧
    ((∀ i, eepBusy c rr (pos.rr + i)) →
      (ar933x_wmac_reset c rr pos).ret = -ETIMEDOUT ∧
      (ar933x_wmac_reset c rr pos).pos.rr = pos.rr + 21 ∧
      countRR c.AR933X_RESET_REG_BOOTSTRAP (ar933x_wmac_reset c rr pos).events = 21 ∧
      countUdelay 10000 (ar933x_wmac_reset c rr pos).events = 20 ∧
      (ar933x_wmac_reset c rr pos).events
        = [Event.ath79_device_reset_set c.AR933X_RESET_WMAC,
           Event.ath79_device_reset_clear c.AR933X_RESET_WMAC]
          ++ busyPolls c 20 ++ [Event.ath79_reset_rr c.AR933X_RESET_REG_BOOTSTRAP,
                                Event.pr_err Diag.wmac_reset_timed_out]) := by
  constructor
  · intro k hk1 hk hbusy hclear
    obtain ⟨h1, h2, h3⟩ := ar933x_reset_clear c rr pos k hk1 (by omega) hbusy hclear
    refine ⟨h1, by rw [h2], ?_, ?_, h3⟩
    · rw [h3]
      have := countRR_busyPolls c (k - 1)
      simp only [countRR] at this ⊢
      simp only [List.count_append, this]
      simp [List.count_cons]
      omega
    · rw [h3]
      have := countUdelay_busyPolls c (k - 1)
      simp only [countUdelay] at this ⊢
      simp only [List.count_append, this]
      simp [List.count_cons]
  · intro hbusy
    obtain ⟨h1, h2, h3⟩ := ar933x_reset_busy c rr pos (fun i _ => hbusy i)
    refine ⟨h1, by rw [h2], ?_, ?_, h3⟩
    · rw [h3]
      have := countRR_busyPolls c 20
      simp only [countRR] at this ⊢
      simp only [List.count_append, this]
      simp [List.count_cons]
    · rw [h3]
      have := countUdelay_busyPolls c 20
      simp only [countUdelay] at this ⊢
      simp only [List.count_append, this]
      simp [List.count_cons]

/-- C1, amended, on two concrete tapes: EEPBUSY clear at the third read, and EEPBUSY never
clear. -/
theorem C1_ar933x_wmac_reset_polls_witness :
    ((ar933x_wmac_reset ath79Regs (busyFor 2) ⟨0, 0⟩).ret = 0 ∧
      (ar933x_wmac_reset ath79Regs (busyFor 2) ⟨0, 0⟩).pos.rr = 0 + 3 ∧
      countRR ath79Regs.AR933X_RESET_REG_BOOTSTRAP
        (ar933x_wmac_reset ath79Regs (busyFor 2) ⟨0, 0⟩).events = 3 ∧
      countUdelay 10000 (ar933x_wmac_reset ath79Regs (busyFor 2) ⟨0, 0⟩).events = 3 - 1 ∧
      (ar933x_wmac_reset ath79Regs (busyFor 2) ⟨0, 0⟩).events
        = [Event.ath79_device_reset_set ath79Regs.AR933X_RESET_WMAC,
           Event.ath79_device_reset_clear ath79Regs.AR933X_RESET_WMAC]
          ++ busyPolls ath79Regs (3 - 1)
          ++ [Event.ath79_reset_rr ath79Regs.AR933X_RESET_REG_BOOTSTRAP]) ∧
    ((ar933x_wmac_reset ath79Regs allOnes ⟨0, 0⟩).ret = -ETIMEDOUT ∧
      (ar933x_wmac_reset ath79Regs allOnes ⟨0, 0⟩).pos.rr = 0 + 21 ∧
      countRR ath79Regs.AR933X_RESET_REG_BOOTSTRAP
        (ar933x_wmac_reset ath79Regs allOnes ⟨0, 0⟩).events = 21 ∧
      countUdelay 10000 (ar933x_wmac_reset ath79Regs allOnes ⟨0, 0⟩).events = 20 ∧
      (ar933x_wmac_reset ath79Regs allOnes ⟨0, 0⟩).events
        = [Event.ath79_device_reset_set ath79Regs.AR933X_RESET_WMAC,
           Event.ath79_device_reset_clear ath79Regs.AR933X_RESET_WMAC]
          ++ busyPolls ath79Regs 20
          ++ [Event.ath79_reset_rr ath79Regs.AR933X_RESET_REG_BOOTSTRAP,
              Event.pr_err Diag.wmac_reset_timed_out]) :=
  ⟨(C1_ar933x_wmac_reset_polls ath79Regs (busyFor 2) ⟨0, 0⟩).1 3 (by decide) (by decide)
      (fun i hi => by
        have hi2 : i < 2 := by omega
        show u32 (if 0 + i < 2 then 0x10 else 0) &&& 2 ^ 4 ≠ 0
        rw [if_pos (by omega)]
        decide)
      (by decide),
   (C1_ar933x_wmac_reset_polls ath79Regs allOnes ⟨0, 0⟩).2 (fun i => by
      show u32 0xffffffff &&& 2 ^ 4 ≠ 0
      decide)⟩

/-- C5: for every sequence of values read from the DDR controller, `qca955x_wmac_reset` returns
0; it makes `m` reads of the activity register with `1 ≤ m ≤ 10`, every read before the last
finding the WMAC active and, when `m < 10`, the last one finding it idle; after these reads and
their delays it asserts and then deasserts the reset line, once each. -/
theorem C5_qca955x_wmac_reset_best_effort (c : Regs) (ddr : Nat → Nat) (pos : HwPos) :
    (qca955x_wmac_reset c ddr pos).ret = 0 ∧
    ∃ m drain, 1 ≤ m ∧ m ≤ 10 ∧
      (qca955x_wmac_reset c ddr pos).pos.ddr = pos.ddr + m ∧
      countDdr QCA955X_DDR_CTL_CONFIG drain = m ∧
      (∀ i, i + 1 < m → ddrBusy ddr (pos.ddr + i)) ∧
      (m < 10 → ¬ ddrBusy ddr (pos.ddr + (m - 1))) ∧
      (∀ e, e ∈ drain →
        e = Event.raw_readl_ddr QCA955X_DDR_CTL_CONFIG ∨ e = Event.udelay 10) ∧
      (qca955x_wmac_reset c ddr pos).events
        = drain ++ [Event.ath79_device_reset_set c.QCA955X_RESET_RTC, Event.udelay 10,
                    Event.ath79_device_reset_clear c.QCA955X_RESET_RTC, Event.udelay 10] := by
  refine ⟨rfl, ?_⟩
  obtain ⟨m, hm, hm1, hpos, hb, hcase⟩ := qca955x_loop_spec ddr 10 pos
  refine ⟨m, (qca955x_wmac_reset_loop ddr 10 pos).events, hm1 (by omega), hm, ?_, ?_, hb, ?_,
    ?_, rfl⟩
  · simp only [qca955x_wmac_reset, hpos]
  · rcases hcase with ⟨_, h1, hev⟩ | ⟨_, _, hev⟩
    · rw [hev]
      have := countDdr_drainPolls (m - 1)
      simp only [countDdr] at this ⊢
      simp only [List.count_append, this]
      simp
      omega
    · rw [hev]; exact countDdr_drainPolls m
  · intro hlt
    rcases hcase with ⟨hc, _, _⟩ | ⟨hmn, _, _⟩
    · exact hc
    · omega
  · intro e he
    rcases hcase with ⟨_, _, hev⟩ | ⟨_, _, hev⟩
    · rw [hev] at he
      rcases List.mem_append.mp he with h | h
      · exact drainPolls_mem _ e h
      · simp at h
        exact Or.inl h
    · rw [hev] at he
      exact drainPolls_mem _ e he

/-- C4: clock detection in `of_ath_ahb_probe`, for every descriptor of `of_ath_ahb_data` and
every register value: if the bootstrap register address of the descriptor is zero, no register
is read and the platform data, the classification included, is left as it was; otherwise the
bootstrap register is read exactly once, `is_clk_25mhz` becomes `false` when the value ANDed
with the reference-clock bitmask is non-zero and `true` when it is zero.  This holds for the
header constants of the mainline kernel, and for all header constants whose reference-clock
bitmasks are non-zero. -/
theorem C4_clock_detection :
    (∀ (v : Variant) (rr : Nat → Nat) (pdata : ath9k_platform_data) (pos : HwPos),
      ((of_ath_ahb_data ath79Regs v).bootstrap_reg = 0 →
        (of_clock_detect rr (of_ath_ahb_data ath79Regs v) pdata pos).events = [] ∧
        (of_clock_detect rr (of_ath_ahb_data ath79Regs v) pdata pos).pos = pos ∧
        (of_clock_detect rr (of_ath_ahb_data ath79Regs v) pdata pos).pdata = pdata) ∧
      ((of_ath_ahb_data ath79Regs v).bootstrap_reg ≠ 0 →
        (of_clock_detect rr (of_ath_ahb_data ath79Regs v) pdata pos).events
          = [Event.ath79_reset_rr (of_ath_ahb_data ath79Regs v).bootstrap_reg] ∧
        countRR (of_ath_ahb_data ath79Regs v).bootstrap_reg
          (of_clock_detect rr (of_ath_ahb_data ath79Regs v) pdata pos).events = 1 ∧
        (of_clock_detect rr (of_ath_ahb_data ath79Regs v) pdata pos).pos
          = { pos with rr := pos.rr + 1 } ∧
        (of_clock_detect rr (of_ath_ahb_data ath79Regs v) pdata pos).pdata
          = { pdata with
              is_clk_25mhz :=
                decide (u32 (rr pos.rr) &&& (of_ath_ahb_data ath79Regs v).bootstrap_ref = 0) } ∧
        (u32 (rr pos.rr) &&& (of_ath_ahb_data ath79Regs v).bootstrap_ref ≠ 0 →
          (of_clock_detect rr (of_ath_ahb_data ath79Regs v) pdata pos).pdata.is_clk_25mhz
            = false) ∧
        (u32 (rr pos.rr) &&& (of_ath_ahb_data ath79Regs v).bootstrap_ref = 0 →
          (of_clock_detect rr (of_ath_ahb_data ath79Regs v) pdata pos).pdata.is_clk_25mhz
            = true))) ∧
    (∀ (c : Regs), refClkMasksNonzero c →
      ∀ (v : Variant) (rr : Nat → Nat) (pdata : ath9k_platform_data) (pos : HwPos),
      ((of_ath_ahb_data c v).bootstrap_reg = 0 →
        (of_clock_detect rr (of_ath_ahb_data c v) pdata pos).events = [] ∧
        (of_clock_detect rr (of_ath_ahb_data c v) pdata pos).pos = pos ∧
        (of_clock_detect rr (of_ath_ahb_data c v) pdata pos).pdata = pdata) ∧
      ((of_ath_ahb_data c v).bootstrap_reg ≠ 0 →
        (of_clock_detect rr (of_ath_ahb_data c v) pdata pos).events
          = [Event.ath79_reset_rr (of_ath_ahb_data c v).bootstrap_reg] ∧
        countRR (of_ath_ahb_data c v).bootstrap_reg
          (of_clock_detect rr (of_ath_ahb_data c v) pdata pos).events = 1 ∧
        (of_clock_detect rr (of_ath_ahb_data c v) pdata pos).pos
          = { pos with rr := pos.rr + 1 } ∧
        (of_clock_detect rr (of_ath_ahb_data c v) pdata pos).pdata
          = { pdata with
              is_clk_25mhz :=
                decide (u32 (rr pos.rr) &&& (of_ath_ahb_data c v).bootstrap_ref = 0) } ∧
        (u32 (rr pos.rr) &&& (of_ath_ahb_data c v).bootstrap_ref ≠ 0 →
          (of_clock_detect rr (of_ath_ahb_data c v) pdata pos).pdata.is_clk_25mhz = false) ∧
        (u32 (rr pos.rr) &&& (of_ath_ahb_data c v).bootstrap_ref = 0 →
          (of_clock_detect rr (of_ath_ahb_data c v) pdata pos).pdata.is_clk_25mhz
            = true))) := by
  constructor
  · intro v rr pdata pos
    exact ⟨fun h0 =>
        (of_clock_detect_spec rr (of_ath_ahb_data ath79Regs v) pdata pos).1 (Or.inl h0),
      fun h1 => (of_clock_detect_spec rr (of_ath_ahb_data ath79Regs v) pdata pos).2 h1
        (of_ath_ahb_data_ref_ne_zero ath79Regs (by decide) v h1)⟩
  · intro c hc v rr pdata pos
    exact ⟨fun h0 => (of_clock_detect_spec rr (of_ath_ahb_data c v) pdata pos).1 (Or.inl h0),
      fun h1 => (of_clock_detect_spec rr (of_ath_ahb_data c v) pdata pos).2 h1
        (of_ath_ahb_data_ref_ne_zero c hc v h1)⟩

/-- C4 on three descriptors with the mainline constants: the AR913X one, which has no bootstrap
register, the AR934X one with the 40 MHz bit set in the register, and the AR933X one with the
bit clear. -/
theorem C4_clock_detection_witness :
    ((of_clock_detect allOnes (of_ath_ahb_data ath79Regs Variant.AR913X_WMAC) samplePdata
        ⟨0, 0⟩).events = [] ∧
      (of_clock_detect allOnes (of_ath_ahb_data ath79Regs Variant.AR913X_WMAC) samplePdata
        ⟨0, 0⟩).pos = ⟨0, 0⟩ ∧
      (of_clock_detect allOnes (of_ath_ahb_data ath79Regs Variant.AR913X_WMAC) samplePdata
        ⟨0, 0⟩).pdata = samplePdata) ∧
    ((of_clock_detect allOnes (of_ath_ahb_data ath79Regs Variant.AR934X_WMAC) samplePdata
        ⟨0, 0⟩).events = [Event.ath79_reset_rr 0xb0] ∧
      (of_clock_detect allOnes (of_ath_ahb_data ath79Regs Variant.AR934X_WMAC) samplePdata
        ⟨0, 0⟩).pdata.is_clk_25mhz = false) ∧
    ((of_clock_detect allZeros (of_ath_ahb_data ath79Regs Variant.AR933X_WMAC) samplePdata
        ⟨0, 0⟩).events = [Event.ath79_reset_rr 0xac] ∧
      (of_clock_detect allZeros (of_ath_ahb_data ath79Regs Variant.AR933X_WMAC) samplePdata
        ⟨0, 0⟩).pdata.is_clk_25mhz = true) :=
  ⟨(C4_clock_detection.1 Variant.AR913X_WMAC allOnes samplePdata ⟨0, 0⟩).1 rfl,
   ⟨((C4_clock_detection.2 ath79Regs (by decide) Variant.AR934X_WMAC allOnes samplePdata
        ⟨0, 0⟩).2 (by decide)).1,
    ((C4_clock_detection.2 ath79Regs (by decide) Variant.AR934X_WMAC allOnes samplePdata
        ⟨0, 0⟩).2 (by decide)).2.2.2.2.1 (by decide)⟩,
   ⟨((C4_clock_detection.1 Variant.AR933X_WMAC allZeros samplePdata ⟨0, 0⟩).2
        (by decide)).1,
    ((C4_clock_detection.1 Variant.AR933X_WMAC allZeros samplePdata ⟨0, 0⟩).2
        (by decide)).2.2.2.2.2 (by decide)⟩⟩

/-- C7: when the node has no "mtd-cal-data" property, `of_get_wifi_cal` returns 0, makes no
call at all (no node lookup, no MTD lookup, no read), and leaves the platform data unchanged,
so that a calibration buffer that was all-zero is still all-zero. -/
theorem C7_of_get_wifi_cal_absent (k : Kernel) (np : device_node) (pdata : ath9k_platform_data)
    (habsent : np.mtd_cal_data = none) :
    (of_get_wifi_cal k np pdata).ret = 0 ∧
    (of_get_wifi_cal k np pdata).events = [] ∧
    (of_get_wifi_cal k np pdata).pdata = pdata ∧
    (of_get_wifi_cal k np pdata).pdata.eeprom_data = pdata.eeprom_data ∧
    ((∀ b, b ∈ pdata.eeprom_data → b = 0) →
      ∀ b, b ∈ (of_get_wifi_cal k np pdata).pdata.eeprom_data → b = 0) := by
  have h : (of_get_wifi_cal k np pdata).ret = 0 ∧ (of_get_wifi_cal k np pdata).events = [] ∧
      (of_get_wifi_cal k np pdata).pdata = pdata := by
    unfold of_get_wifi_cal
    split
    · simp only [habsent]
      exact ⟨trivial, trivial, trivial⟩
    · exact ⟨rfl, rfl, rfl⟩
  refine ⟨h.1, h.2.1, h.2.2, by rw [h.2.2], ?_⟩
  intro hz b hb
  rw [h.2.2] at hb
  exact hz b hb

/-- C7 on a node without calibration reference and a zero-filled buffer. -/
theorem C7_of_get_wifi_cal_absent_witness :
    (of_get_wifi_cal (sampleKernel allOnes allOnes) (sampleNode "qca,ar9340-wmac")
      samplePdata).ret = 0 ∧
    (of_get_wifi_cal (sampleKernel allOnes allOnes) (sampleNode "qca,ar9340-wmac")
      samplePdata).events = [] ∧
    (of_get_wifi_cal (sampleKernel allOnes allOnes) (sampleNode "qca,ar9340-wmac")
      samplePdata).pdata.eeprom_data = [0, 0, 0, 0] :=
  ⟨(C7_of_get_wifi_cal_absent (sampleKernel allOnes allOnes) (sampleNode "qca,ar9340-wmac")
      samplePdata rfl).1,
   (C7_of_get_wifi_cal_absent (sampleKernel allOnes allOnes) (sampleNode "qca,ar9340-wmac")
      samplePdata rfl).2.1,
   (C7_of_get_wifi_cal_absent (sampleKernel allOnes allOnes) (sampleNode "qca,ar9340-wmac")
      samplePdata rfl).2.2.2.1⟩

/-- C8: each of the six supported compatible strings occurs exactly once in `of_ath_ahb_match`,
is matched by `of_match_device`, and belongs to exactly one descriptor index; entries with
distinct strings point to distinct descriptors; and the reset operation of every descriptor of
`of_ath_ahb_data` is one of the four kinds. -/
theorem C8_variant_table :
    of_ath_ahb_match.map Prod.fst = supportedKeys ∧
    (∀ s, s ∈ supportedKeys → (of_ath_ahb_match.map Prod.fst).count s = 1) ∧
    (∀ s, s ∈ supportedKeys →
      ∃ v, of_match_device of_ath_ahb_match (some (sampleNode s)) = some (s, v) ∧
        ∀ w, (s, w) ∈ of_ath_ahb_match → w = v) ∧
    (∀ e1, e1 ∈ of_ath_ahb_match → ∀ e2, e2 ∈ of_ath_ahb_match →
      e1.1 ≠ e2.1 → e1.2 ≠ e2.2) ∧
    (∀ (c : Regs) (v : Variant), (of_ath_ahb_data c v).wmac_reset ∈ resetKinds) := by
  refine ⟨by decide, by decide, ?_, by decide, ?_⟩
  · intro s hs
    simp only [supportedKeys, List.mem_cons, List.mem_singleton, List.not_mem_nil,
      or_false] at hs
    rcases hs with h | h | h | h | h | h <;> subst h
    · exact ⟨Variant.AR913X_WMAC, by decide, fun w hw => by
        cases w <;> first | rfl | exact absurd hw (by decide)⟩
    · exact ⟨Variant.AR933X_WMAC, by decide, fun w hw => by
        cases w <;> first | rfl | exact absurd hw (by decide)⟩
    · exact ⟨Variant.AR934X_WMAC, by decide, fun w hw => by
        cases w <;> first | rfl | exact absurd hw (by decide)⟩
    · exact ⟨Variant.QCA953X_WMAC, by decide, fun w hw => by
        cases w <;> first | rfl | exact absurd hw (by decide)⟩
    · exact ⟨Variant.QCA955X_WMAC, by decide, fun w hw => by
        cases w <;> first | rfl | exact absurd hw (by decide)⟩
    · exact ⟨Variant.QCA956X_WMAC, by decide, fun w hw => by
        cases w <;> first | rfl | exact absurd hw (by decide)⟩
  · intro c v
    cases v <;> simp [of_ath_ahb_data, resetKinds]

/-- C6, as stated, fails: in a build without `CONFIG_MTD`, `of_get_wifi_cal` returns 0 for a
node whose "mtd-cal-data" property has the wrong size, so the malformed reference is not
reported. -/
theorem C6_no_mtd_counterexample :
    malformedCalRef noMtdKernel badCalNode ∧
    (of_get_wifi_cal noMtdKernel badCalNode samplePdata).ret = 0 ∧
    ¬ (of_get_wifi_cal noMtdKernel badCalNode samplePdata).ret ≠ 0 :=
  ⟨⟨[0, 0, 0, 1], rfl, Or.inl (by decide)⟩, by decide, by decide⟩

/-- C6, amended: for every node whose "mtd-cal-data" reference is malformed (wrong property
size, zero phandle, phandle without node, MTD device that cannot be obtained),
`of_get_wifi_cal` leaves the platform data, the calibration buffer included, unmodified, and it
returns non-zero in a build with `CONFIG_MTD` and 0 in a build without it; and
`of_ath_ahb_probe` on a device with that node still completes, leaves the calibration buffer as
it was, logs the failure in a build with `CONFIG_MTD`, and returns the device id of the
selected descriptor, the same value as every other run that selects this descriptor. -/
theorem C6_calibration_failure_non_fatal (k : Kernel) (np : device_node)
    (hbad : malformedCalRef k np) :
    (∀ pdata, (k.CONFIG_MTD = true → (of_get_wifi_cal k np pdata).ret ≠ 0) ∧
      (k.CONFIG_MTD = false → (of_get_wifi_cal k np pdata).ret = 0) ∧
      (of_get_wifi_cal k np pdata).pdata = pdata ∧
      (of_get_wifi_cal k np pdata).pdata.eeprom_data = pdata.eeprom_data) ∧
    (∀ (pdev : platform_device) (pdata : ath9k_platform_data) (pos : HwPos)
        (m : String × Variant),
      pdev.of_node = some np → of_match_device of_ath_ahb_match (some np) = some m →
      ∃ o, of_ath_ahb_probe k pdev pdata pos = some o ∧
        o.ret = (of_ath_ahb_data k.regs m.2).dev_id ∧
        o.pdata.eeprom_data = pdata.eeprom_data ∧
        (k.CONFIG_MTD = true → Event.dev_err Diag.failed_to_load_calibration ∈ o.events) ∧
        ∀ (k2 : Kernel) (pdev2 : platform_device) (pdata2 : ath9k_platform_data)
            (pos2 : HwPos) (o2 : OfResult),
          k2.regs = k.regs → of_match_device of_ath_ahb_match pdev2.of_node = some m →
          of_ath_ahb_probe k2 pdev2 pdata2 pos2 = some o2 → o2.ret = o.ret) := by
  have hfix : ∀ pdata, (of_get_wifi_cal k np pdata).pdata = pdata := by
    intro pdata
    rcases Bool.eq_false_or_eq_true k.CONFIG_MTD with hmtd | hmtd
    · exact (of_get_wifi_cal_malformed k np pdata hmtd hbad).2
    · exact (of_get_wifi_cal_no_mtd k np pdata hmtd).2
  constructor
  · intro pdata
    refine ⟨?_, ?_, hfix pdata, by rw [hfix pdata]⟩
    · intro hmtd
      rw [(of_get_wifi_cal_malformed k np pdata hmtd hbad).1]
      decide
    · intro hmtd
      exact (of_get_wifi_cal_no_mtd k np pdata hmtd).1
  · intro pdev pdata pos m hnp hm
    obtain ⟨o, ho, hret, rst, clk, cal, hrst, hclk, hcal, hpd, _, hev⟩ :=
      of_ath_ahb_probe_eq k pdev pdata pos np m hnp hm
    have h2 := hfix
      { clk.pdata with get_mac_revision := (of_ath_ahb_data k.regs m.2).soc_revision }
    rw [← hcal] at h2
    refine ⟨o, ho, hret, ?_, ?_, ?_⟩
    · rw [hpd, h2]
      show clk.pdata.eeprom_data = pdata.eeprom_data
      rw [hclk, of_clock_detect_eeprom, hrst, of_wmac_reset_eeprom]
      rfl
    · intro hmtd
      have h1 := (of_get_wifi_cal_malformed k np
        { clk.pdata with get_mac_revision := (of_ath_ahb_data k.regs m.2).soc_revision }
        hmtd hbad).1
      rw [← hcal] at h1
      rw [hev, h1]
      simp
    · intro k2 pdev2 pdata2 pos2 o2 hregs hm2 ho2
      obtain ⟨np2, m2, _, hm2b, hret2, _⟩ := of_ath_ahb_probe_some k2 pdev2 pdata2 pos2 o2 ho2
      rw [hm2] at hm2b
      simp only [Option.some.injEq] at hm2b
      rw [hret2, hret, hregs, hm2b]

/-- C6, amended, on a node whose "mtd-cal-data" property has the wrong size, in a build with
`CONFIG_MTD`: `of_get_wifi_cal` returns non-zero without touching the buffer, and
`of_ath_ahb_probe` completes with the device id of the AR9340, the buffer unchanged and the
failure logged. -/
theorem C6_calibration_failure_non_fatal_witness :
    (of_get_wifi_cal (sampleKernel allOnes allOnes) badCalNode samplePdata).ret ≠ 0 ∧
    (of_get_wifi_cal (sampleKernel allOnes allOnes) badCalNode samplePdata).pdata
      = samplePdata ∧
    ∃ o, of_ath_ahb_probe (sampleKernel allOnes allOnes) badCalDevice samplePdata ⟨0, 0⟩
        = some o ∧
      o.ret = (of_ath_ahb_data ath79Regs Variant.AR934X_WMAC).dev_id ∧
      o.pdata.eeprom_data = samplePdata.eeprom_data ∧
      Event.dev_err Diag.failed_to_load_calibration ∈ o.events := by
  have h := C6_calibration_failure_non_fatal (sampleKernel allOnes allOnes) badCalNode
    ⟨[0, 0, 0, 1], rfl, Or.inl (by decide)⟩
  obtain ⟨o, ho, hret, hbuf, hlog, _⟩ :=
    h.2 badCalDevice samplePdata ⟨0, 0⟩ ("qca,ar9340-wmac", Variant.AR934X_WMAC) rfl
      (by decide)
  exact ⟨(h.1 samplePdata).1 rfl, (h.1 samplePdata).2.2.1, o, ho, hret, hbuf, hlog rfl⟩

/-- C9, as stated, fails: on a successful run the device context is allocated before the
interrupt line is claimed. -/
theorem C9_acquisition_order_counterexample :
    (ath_ahb_probe (sampleKernel allOnes allOnes) (sampleDevice "qca,ar9340-wmac") ⟨0, 0⟩).ret
      = some 0 ∧
    acquired
      (ath_ahb_probe (sampleKernel allOnes allOnes) (sampleDevice "qca,ar9340-wmac")
        ⟨0, 0⟩).events
      = [Resource.mapping, Resource.context, Resource.irq_line 2, Resource.device] ∧
    acquired
      (ath_ahb_probe (sampleKernel allOnes allOnes) (sampleDevice "qca,ar9340-wmac")
        ⟨0, 0⟩).events
      ≠ [Resource.mapping, Resource.irq_line 2, Resource.context, Resource.device] := by
  decide

/-- C9, amended: on every successful run of `ath_ahb_probe` the resources are acquired in the
order register-space mapping, device-context allocation (`ieee80211_alloc_hw`), interrupt-line
claim (`request_irq`), handoff to `ath9k_init_device`. -/
theorem C9_acquisition_order (k : Kernel) (pdev : platform_device) (pos : HwPos)
    (h : (ath_ahb_probe k pdev pos).ret = some 0) :
    ∃ irq, pdev.irq_res = some irq ∧
      acquired (ath_ahb_probe k pdev pos).events
        = [Resource.mapping, Resource.context, Resource.irq_line irq, Resource.device] := by
  obtain ⟨s, z, irq, _, hirq, _, hacq, _⟩ := ath_ahb_probe_success_acquired k pdev pos h
  exact ⟨irq, hirq, hacq⟩

/-- C9, amended, on a successful probe of a QCA9550 WMAC. -/
theorem C9_acquisition_order_witness :
    ∃ irq, (sampleDevice "qca,qca9550-wmac").irq_res = some irq ∧
      acquired
        (ath_ahb_probe (sampleKernel allOnes allOnes) (sampleDevice "qca,qca9550-wmac")
          ⟨0, 0⟩).events
        = [Resource.mapping, Resource.context, Resource.irq_line irq, Resource.device] :=
  C9_acquisition_order (sampleKernel allOnes allOnes) (sampleDevice "qca,qca9550-wmac") ⟨0, 0⟩
    (by decide)

/-- C10: after a successful `ath_ahb_probe`, which allocated the context, claimed the interrupt
and initialised the device in this order, `ath_ahb_remove` de-initialises the device, releases
the same interrupt line and frees the context, the reverse order; for a device without a
registered context it makes no call; in every case it returns 0. -/
theorem C10_teardown_symmetry (k : Kernel) (pdev : platform_device) (pos : HwPos) :
    ((ath_ahb_probe k pdev pos).ret = some 0 →
      ∃ irq, pdev.irq_res = some irq ∧
        acquired (ath_ahb_probe k pdev pos).events
          = [Resource.mapping, Resource.context, Resource.irq_line irq, Resource.device] ∧
        (ath_ahb_remove k (ath_ahb_probe k pdev pos).pdev).events
          = [Event.ath9k_deinit_device, Event.free_irq irq, Event.ieee80211_free_hw] ∧
        released (ath_ahb_remove k (ath_ahb_probe k pdev pos).pdev).events
          = [Resource.context, Resource.irq_line irq, Resource.device].reverse ∧
        (ath_ahb_remove k (ath_ahb_probe k pdev pos).pdev).ret = 0) ∧
    (∀ sc, pdev.drvdata = some sc →
      (ath_ahb_remove k pdev).events
        = [Event.ath9k_deinit_device, Event.free_irq sc.irq, Event.ieee80211_free_hw] ∧
      (ath_ahb_remove k pdev).ret = 0) ∧
    (pdev.drvdata = none →
      (ath_ahb_remove k pdev).events = [] ∧ released (ath_ahb_remove k pdev).events = [] ∧
      (ath_ahb_remove k pdev).ret = 0) := by
  refine ⟨?_, ?_, ?_⟩
  · intro h
    obtain ⟨s, z, irq, _, hirq, hdrv, hacq, _⟩ := ath_ahb_probe_success_acquired k pdev pos h
    refine ⟨irq, hirq, hacq, ?_, ?_, rfl⟩
    · simp only [ath_ahb_remove, hdrv]
    · simp only [ath_ahb_remove, hdrv]
      simp [released, Event.releases]
  · intro sc hsc
    simp only [ath_ahb_remove, hsc]
    exact ⟨trivial, trivial⟩
  · intro hnone
    simp only [ath_ahb_remove, hnone]
    exact ⟨trivial, rfl, trivial⟩

/-- C10 on a successfully probed AR9330 WMAC and on a device that was never probed. -/
theorem C10_teardown_symmetry_witness :
    (∃ irq, (sampleDevice "qca,ar9330-wmac").irq_res = some irq ∧
        acquired
          (ath_ahb_probe (sampleKernel (busyFor 2) allOnes) (sampleDevice "qca,ar9330-wmac")
            ⟨0, 0⟩).events
          = [Resource.mapping, Resource.context, Resource.irq_line irq, Resource.device] ∧
        (ath_ahb_remove (sampleKernel (busyFor 2) allOnes)
          (ath_ahb_probe (sampleKernel (busyFor 2) allOnes) (sampleDevice "qca,ar9330-wmac")
            ⟨0, 0⟩).pdev).events
          = [Event.ath9k_deinit_device, Event.free_irq irq, Event.ieee80211_free_hw] ∧
        released (ath_ahb_remove (sampleKernel (busyFor 2) allOnes)
          (ath_ahb_probe (sampleKernel (busyFor 2) allOnes) (sampleDevice "qca,ar9330-wmac")
            ⟨0, 0⟩).pdev).events
          = [Resource.context, Resource.irq_line irq, Resource.device].reverse ∧
        (ath_ahb_remove (sampleKernel (busyFor 2) allOnes)
          (ath_ahb_probe (sampleKernel (busyFor 2) allOnes) (sampleDevice "qca,ar9330-wmac")
            ⟨0, 0⟩).pdev).ret = 0) ∧
    ((ath_ahb_remove (sampleKernel (busyFor 2) allOnes)
        (sampleDevice "qca,ar9330-wmac")).events = [] ∧
      released (ath_ahb_remove (sampleKernel (busyFor 2) allOnes)
        (sampleDevice "qca,ar9330-wmac")).events = [] ∧
      (ath_ahb_remove (sampleKernel (busyFor 2) allOnes)
        (sampleDevice "qca,ar9330-wmac")).ret = 0) :=
  ⟨(C10_teardown_symmetry (sampleKernel (busyFor 2) allOnes) (sampleDevice "qca,ar9330-wmac")
      ⟨0, 0⟩).1 (by decide),
   (C10_teardown_symmetry (sampleKernel (busyFor 2) allOnes) (sampleDevice "qca,ar9330-wmac")
      ⟨0, 0⟩).2.2 rfl⟩

/-- C2, as stated, fails: for the AR9330 WMAC with EEPBUSY set at every read, the reset times
out, yet the probe returns 0, calls `ath9k_init_device` and ends holding the mapping, the device
context, the interrupt line and the initialised device. -/
theorem C2_reset_timeout_counterexample :
    (∀ i, eepBusy ath79Regs allOnes i) ∧
    (of_ath_ahb_data ath79Regs Variant.AR933X_WMAC).wmac_reset
      = some IntFn.ar933x_wmac_reset ∧
    Event.pr_err Diag.wmac_reset_timed_out ∈
      (ath_ahb_probe (sampleKernel allOnes allOnes) (sampleDevice "qca,ar9330-wmac")
        ⟨0, 0⟩).events ∧
    (ath_ahb_probe (sampleKernel allOnes allOnes) (sampleDevice "qca,ar9330-wmac") ⟨0, 0⟩).ret
      = some 0 ∧
    (ath_ahb_probe (sampleKernel allOnes allOnes) (sampleDevice "qca,ar9330-wmac") ⟨0, 0⟩).ret
      ≠ some (-ETIMEDOUT) ∧
    Event.ath9k_init_device 0x0035 0 ∈
      (ath_ahb_probe (sampleKernel allOnes allOnes) (sampleDevice "qca,ar9330-wmac")
        ⟨0, 0⟩).events ∧
    held (ath_ahb_probe (sampleKernel allOnes allOnes) (sampleDevice "qca,ar9330-wmac")
        ⟨0, 0⟩).events
      = [Resource.mapping, Resource.context, Resource.irq_line 2, Resource.device] := by
  refine ⟨fun i => ?_, by decide, by decide, by decide, by decide, by decide, by decide⟩
  show u32 0xffffffff &&& 2 ^ 4 ≠ 0
  decide

/-- C2, amended: when the selected variant uses the polling-pulse reset and EEPBUSY never
clears, `ar933x_wmac_reset` logs the timeout and returns `-ETIMEDOUT`, but `of_ath_ahb_probe`
does not use that value.  The calls of the probe are, in this order: the allocation of the
platform data, the register mapping, the device-context allocation and `platform_set_drvdata`;
then the whole reset sequence ending with the timeout message, at which point exactly the
mapping and the context are held; then calls that acquire and release nothing; then
`request_irq` and, when that succeeds, `ath9k_init_device` with the device id of the
descriptor.  The return value is that of `request_irq` when non-zero and that of
`ath9k_init_device` otherwise, and when both are 0 the probe returns 0 holding the mapping, the
context, the interrupt line and the device. -/
theorem C2_reset_timeout_not_fatal (k : Kernel) (pdev : platform_device) (pos : HwPos)
    (np : device_node) (m : String × Variant) (s z irq : Nat)
    (hof : k.CONFIG_OF = true) (hnp : pdev.of_node = some np)
    (hm : of_match_device of_ath_ahb_match (some np) = some m)
    (hreset : (of_ath_ahb_data k.regs m.2).wmac_reset = some IntFn.ar933x_wmac_reset)
    (hbusy : ∀ i, eepBusy k.regs k.rr (pos.rr + i))
    (hkz : k.devm_kzalloc_ok = true) (hmem : pdev.mem_res = some (s, z))
    (hio : k.devm_ioremap_ok = true) (hirq : pdev.irq_res = some irq)
    (hal : k.alloc_hw_ok = true) :
    (call_IntFn k IntFn.ar933x_wmac_reset pos).ret = -ETIMEDOUT ∧
    (ar933x_wmac_reset k.regs k.rr pos).events
      = [Event.ath79_device_reset_set k.regs.AR933X_RESET_WMAC,
         Event.ath79_device_reset_clear k.regs.AR933X_RESET_WMAC]
        ++ busyPolls k.regs 20 ++ [Event.ath79_reset_rr k.regs.AR933X_RESET_REG_BOOTSTRAP,
                                   Event.pr_err Diag.wmac_reset_timed_out] ∧
    (∃ rest, neutral rest ∧
      (ath_ahb_probe k pdev pos).events
        = [Event.devm_kzalloc true, Event.devm_ioremap_nocache s z true,
           Event.ath9k_fill_chanctx_ops, Event.ieee80211_alloc_hw true,
           Event.platform_set_drvdata]
          ++ (ar933x_wmac_reset k.regs k.rr pos).events
          ++ rest
          ++ [Event.request_irq irq k.request_irq_ret]
          ++ (if k.request_irq_ret ≠ 0 then
                [Event.dev_err Diag.request_irq_failed, Event.ieee80211_free_hw]
              else
                [Event.ath9k_init_device (u16 (of_ath_ahb_data k.regs m.2).dev_id)
                   k.init_device_ret]
                ++ (if k.init_device_ret ≠ 0 then
                      [Event.dev_err Diag.failed_to_initialize, Event.free_irq irq,
                       Event.ieee80211_free_hw]
                    else [Event.ath9k_hw_name, Event.wiphy_info]))) ∧
    acquired ([Event.devm_kzalloc true, Event.devm_ioremap_nocache s z true,
               Event.ath9k_fill_chanctx_ops, Event.ieee80211_alloc_hw true,
               Event.platform_set_drvdata] ++ (ar933x_wmac_reset k.regs k.rr pos).events)
      = [Resource.mapping, Resource.context] ∧
    held ([Event.devm_kzalloc true, Event.devm_ioremap_nocache s z true,
           Event.ath9k_fill_chanctx_ops, Event.ieee80211_alloc_hw true,
           Event.platform_set_drvdata] ++ (ar933x_wmac_reset k.regs k.rr pos).events)
      = [Resource.mapping, Resource.context] ∧
    Event.pr_err Diag.wmac_reset_timed_out ∈ (ath_ahb_probe k pdev pos).events ∧
    Event.devm_ioremap_nocache s z true ∈ (ath_ahb_probe k pdev pos).events ∧
    Event.ieee80211_alloc_hw true ∈ (ath_ahb_probe k pdev pos).events ∧
    Event.request_irq irq k.request_irq_ret ∈ (ath_ahb_probe k pdev pos).events ∧
    (k.request_irq_ret = 0 →
      Event.ath9k_init_device (u16 (of_ath_ahb_data k.regs m.2).dev_id) k.init_device_ret
        ∈ (ath_ahb_probe k pdev pos).events) ∧
    (ath_ahb_probe k pdev pos).ret
      = some (if k.request_irq_ret ≠ 0 then k.request_irq_ret else k.init_device_ret) ∧
    (k.request_irq_ret = 0 → k.init_device_ret = 0 →
      (ath_ahb_probe k pdev pos).ret = some 0 ∧
      held (ath_ahb_probe k pdev pos).events
        = [Resource.mapping, Resource.context, Resource.irq_line irq, Resource.device]) := by
  obtain ⟨hr1, _, hr3⟩ := ar933x_reset_busy k.regs k.rr pos (fun i _ => hbusy i)
  obtain ⟨o, pdev2, ho, hnp2, hret, hev⟩ :=
    ath_ahb_probe_of_device k pdev pos np m s z irq hof hnp hm hkz hmem hio hirq hal
  obtain ⟨np1, m1, hnp1, hm1, hdev, rst, clk, cal, hrst, hclk, hcal, _, _, hoev⟩ :=
    of_ath_ahb_probe_some k pdev2 (kzalloc_platform_data k) pos o ho
  rw [hnp2] at hnp1 hm1
  rw [hm] at hm1
  simp only [Option.some.injEq] at hnp1 hm1
  subst hnp1
  subst hm1
  have hrstev : rst.events = (ar933x_wmac_reset k.regs k.rr pos).events := by
    rw [hrst]
    simp only [of_wmac_reset, hreset, call_IntFn]
  have hnreset : neutral (ar933x_wmac_reset k.regs k.rr pos).events :=
    neutral_call_IntFn k IntFn.ar933x_wmac_reset pos
  have hnrest : neutral (clk.events ++ cal.events ++
      (if cal.ret ≠ 0 then [Event.dev_err Diag.failed_to_load_calibration] else [])) := by
    refine neutral_append (neutral_append ?_ ?_) ?_
    · rw [hclk]; exact neutral_of_clock_detect _ _ _ _
    · rw [hcal]; exact neutral_of_get_wifi_cal _ _ _
    · by_cases hc : cal.ret ≠ 0
      · rw [if_pos hc]; simp [neutral, Event.isProbeStep]
      · rw [if_neg hc]; exact neutral_nil
  have htrace : (ath_ahb_probe k pdev pos).events
      = [Event.devm_kzalloc true, Event.devm_ioremap_nocache s z true,
         Event.ath9k_fill_chanctx_ops, Event.ieee80211_alloc_hw true,
         Event.platform_set_drvdata]
        ++ (ar933x_wmac_reset k.regs k.rr pos).events
        ++ (clk.events ++ cal.events ++
            (if cal.ret ≠ 0 then [Event.dev_err Diag.failed_to_load_calibration] else []))
        ++ [Event.request_irq irq k.request_irq_ret]
        ++ (if k.request_irq_ret ≠ 0 then
              [Event.dev_err Diag.request_irq_failed, Event.ieee80211_free_hw]
            else
              [Event.ath9k_init_device (u16 (of_ath_ahb_data k.regs m.2).dev_id)
                 k.init_device_ret]
              ++ (if k.init_device_ret ≠ 0 then
                    [Event.dev_err Diag.failed_to_initialize, Event.free_irq irq,
                     Event.ieee80211_free_hw]
                  else [Event.ath9k_hw_name, Event.wiphy_info])) := by
    rw [hev, hoev, hrstev, hdev]
    simp only [List.append_assoc]
  have hlog : Event.pr_err Diag.wmac_reset_timed_out ∈ o.events := by
    rw [hoev, hrstev, hr3]
    simp
  refine ⟨hr1, hr3, ⟨_, hnrest, htrace⟩, ?_, ?_, ?_, ?_, ?_, ?_, ?_, hret, ?_⟩
  · simp only [acquired_append, acquired_neutral hnreset]
    simp [acquired, Event.acquires]
  · simp only [held, List.foldl_append, foldl_heldStep_neutral hnreset]
    simp [heldStep, Event.acquires, Event.releases]
  · rw [hev]
    simp [hlog]
  · rw [hev]
    simp
  · rw [hev]
    simp
  · rw [hev]
    simp
  · intro hreq
    rw [hev, hdev]
    simp [hreq]
  · intro hreq hini
    have h0 : (ath_ahb_probe k pdev pos).ret = some 0 := by
      rw [hret]
      simp [hreq, hini]
    obtain ⟨_, _, irq2, _, hirq2, _, _, _, hheld⟩ := ath_ahb_probe_success_acquired k pdev pos h0
    rw [hirq] at hirq2
    simp only [Option.some.injEq] at hirq2
    subst hirq2
    exact ⟨h0, hheld⟩

/-- C2, amended, on the AR9330 WMAC with EEPBUSY set at every read: when the timeout is logged
the mapping and the context are held, and the probe returns 0 with every resource held. -/
theorem C2_reset_timeout_not_fatal_witness :
    held ([Event.devm_kzalloc true, Event.devm_ioremap_nocache 0x18100000 0x20000 true,
           Event.ath9k_fill_chanctx_ops, Event.ieee80211_alloc_hw true,
           Event.platform_set_drvdata]
          ++ (ar933x_wmac_reset ath79Regs allOnes ⟨0, 0⟩).events)
      = [Resource.mapping, Resource.context] ∧
    Event.pr_err Diag.wmac_reset_timed_out ∈
      (ath_ahb_probe (sampleKernel allOnes allOnes) (sampleDevice "qca,ar9330-wmac")
        ⟨0, 0⟩).events ∧
    (ath_ahb_probe (sampleKernel allOnes allOnes) (sampleDevice "qca,ar9330-wmac") ⟨0, 0⟩).ret
      = some 0 ∧
    held (ath_ahb_probe (sampleKernel allOnes allOnes) (sampleDevice "qca,ar9330-wmac")
        ⟨0, 0⟩).events
      = [Resource.mapping, Resource.context, Resource.irq_line 2, Resource.device] := by
  obtain ⟨_, _, _, _, hheld0, hlog, _, _, _, _, _, hdone⟩ :=
    C2_reset_timeout_not_fatal (sampleKernel allOnes allOnes)
      (sampleDevice "qca,ar9330-wmac") ⟨0, 0⟩ (sampleNode "qca,ar9330-wmac")
      ("qca,ar9330-wmac", Variant.AR933X_WMAC) 0x18100000 0x20000 2 rfl rfl (by decide) rfl
      (fun i => by
        show u32 0xffffffff &&& 2 ^ 4 ≠ 0
        decide)
      rfl rfl rfl rfl rfl
  exact ⟨hheld0, hlog, (hdone rfl rfl).1, (hdone rfl rfl).2⟩

/-- C3, as stated, fails: when `ieee80211_alloc_hw` fails the probe returns `-ENOMEM` without
releasing the register mapping acquired before, which is still held when it returns. -/
theorem C3_mapping_not_released_counterexample :
    Event.ieee80211_alloc_hw false ∈
      (ath_ahb_probe noContextKernel (sampleDevice "qca,ar9340-wmac") ⟨0, 0⟩).events ∧
    (ath_ahb_probe noContextKernel (sampleDevice "qca,ar9340-wmac") ⟨0, 0⟩).ret
      = some (-ENOMEM) ∧
    acquired (ath_ahb_probe noContextKernel (sampleDevice "qca,ar9340-wmac") ⟨0, 0⟩).events
      = [Resource.mapping] ∧
    released (ath_ahb_probe noContextKernel (sampleDevice "qca,ar9340-wmac") ⟨0, 0⟩).events
      ≠ (acquired
          (ath_ahb_probe noContextKernel (sampleDevice "qca,ar9340-wmac")
            ⟨0, 0⟩).events).reverse ∧
    held (ath_ahb_probe noContextKernel (sampleDevice "qca,ar9340-wmac") ⟨0, 0⟩).events
      ≠ [] := by
  decide

/-- C3, amended: if the register mapping or the device-context allocation fails, the probe
returns `-ENOMEM` and releases nothing; if `request_irq` fails, it returns that non-zero error
and frees the device context; if `ath9k_init_device` fails, it returns that non-zero error and
frees the interrupt line and then the device context.  These releases are in reverse order of
acquisition, and the only resource still held at the return is the register mapping, when it
was acquired: it is device-managed (`devm_ioremap_nocache`) and the probe never releases it. -/
theorem C3_failure_rollback (k : Kernel) (pdev : platform_device) (pos : HwPos) :
    (∀ s z, Event.devm_ioremap_nocache s z false ∈ (ath_ahb_probe k pdev pos).events →
      (ath_ahb_probe k pdev pos).ret = some (-ENOMEM) ∧
      acquired (ath_ahb_probe k pdev pos).events = [] ∧
      released (ath_ahb_probe k pdev pos).events = [] ∧
      held (ath_ahb_probe k pdev pos).events = []) ∧
    (Event.ieee80211_alloc_hw false ∈ (ath_ahb_probe k pdev pos).events →
      (ath_ahb_probe k pdev pos).ret = some (-ENOMEM) ∧
      acquired (ath_ahb_probe k pdev pos).events = [Resource.mapping] ∧
      released (ath_ahb_probe k pdev pos).events = [] ∧
      held (ath_ahb_probe k pdev pos).events = [Resource.mapping]) ∧
    (∀ irq ret, ret ≠ 0 → Event.request_irq irq ret ∈ (ath_ahb_probe k pdev pos).events →
      (ath_ahb_probe k pdev pos).ret = some ret ∧
      acquired (ath_ahb_probe k pdev pos).events = [Resource.mapping, Resource.context] ∧
      released (ath_ahb_probe k pdev pos).events = [Resource.context] ∧
      held (ath_ahb_probe k pdev pos).events = [Resource.mapping]) ∧
    (∀ d ret, ret ≠ 0 → Event.ath9k_init_device d ret ∈ (ath_ahb_probe k pdev pos).events →
      (ath_ahb_probe k pdev pos).ret = some ret ∧
      ∃ irq, pdev.irq_res = some irq ∧
        acquired (ath_ahb_probe k pdev pos).events
          = [Resource.mapping, Resource.context, Resource.irq_line irq] ∧
        released (ath_ahb_probe k pdev pos).events
          = [Resource.irq_line irq, Resource.context] ∧
        held (ath_ahb_probe k pdev pos).events = [Resource.mapping]) ∧
    -ENOMEM ≠ 0 :=
  ⟨fun s z hm => ath_ahb_probe_ioremap_fails k pdev pos s z hm,
   fun hm => ath_ahb_probe_alloc_hw_fails k pdev pos hm,
   fun irq ret hret hm => ath_ahb_probe_request_irq_fails k pdev pos irq ret hret hm,
   fun d ret hret hm => ath_ahb_probe_init_device_fails k pdev pos d ret hret hm,
   by decide⟩

/-- C3, amended, on four runs, one for each step that fails. -/
theorem C3_failure_rollback_witness :
    ((ath_ahb_probe noMappingKernel (sampleDevice "qca,ar9340-wmac") ⟨0, 0⟩).ret
        = some (-ENOMEM) ∧
      acquired (ath_ahb_probe noMappingKernel (sampleDevice "qca,ar9340-wmac") ⟨0, 0⟩).events
        = [] ∧
      released (ath_ahb_probe noMappingKernel (sampleDevice "qca,ar9340-wmac") ⟨0, 0⟩).events
        = [] ∧
      held (ath_ahb_probe noMappingKernel (sampleDevice "qca,ar9340-wmac") ⟨0, 0⟩).events
        = []) ∧
    ((ath_ahb_probe noContextKernel (sampleDevice "qca,ar9340-wmac") ⟨0, 0⟩).ret
        = some (-ENOMEM) ∧
      acquired (ath_ahb_probe noContextKernel (sampleDevice "qca,ar9340-wmac") ⟨0, 0⟩).events
        = [Resource.mapping] ∧
      released (ath_ahb_probe noContextKernel (sampleDevice "qca,ar9340-wmac") ⟨0, 0⟩).events
        = [] ∧
      held (ath_ahb_probe noContextKernel (sampleDevice "qca,ar9340-wmac") ⟨0, 0⟩).events
        = [Resource.mapping]) ∧
    ((ath_ahb_probe noIrqKernel (sampleDevice "qca,ar9340-wmac") ⟨0, 0⟩).ret = some (-16) ∧
      acquired (ath_ahb_probe noIrqKernel (sampleDevice "qca,ar9340-wmac") ⟨0, 0⟩).events
        = [Resource.mapping, Resource.context] ∧
      released (ath_ahb_probe noIrqKernel (sampleDevice "qca,ar9340-wmac") ⟨0, 0⟩).events
        = [Resource.context] ∧
      held (ath_ahb_probe noIrqKernel (sampleDevice "qca,ar9340-wmac") ⟨0, 0⟩).events
        = [Resource.mapping]) ∧
    ((ath_ahb_probe noInitKernel (sampleDevice "qca,ar9340-wmac") ⟨0, 0⟩).ret = some (-5) ∧
      ∃ irq, (sampleDevice "qca,ar9340-wmac").irq_res = some irq ∧
        acquired (ath_ahb_probe noInitKernel (sampleDevice "qca,ar9340-wmac") ⟨0, 0⟩).events
          = [Resource.mapping, Resource.context, Resource.irq_line irq] ∧
        released (ath_ahb_probe noInitKernel (sampleDevice "qca,ar9340-wmac") ⟨0, 0⟩).events
          = [Resource.irq_line irq, Resource.context] ∧
        held (ath_ahb_probe noInitKernel (sampleDevice "qca,ar9340-wmac") ⟨0, 0⟩).events
          = [Resource.mapping]) :=
  ⟨(C3_failure_rollback noMappingKernel (sampleDevice "qca,ar9340-wmac") ⟨0, 0⟩).1
      0x18100000 0x20000 (by decide),
   (C3_failure_rollback noContextKernel (sampleDevice "qca,ar9340-wmac") ⟨0, 0⟩).2.1
      (by decide),
   (C3_failure_rollback noIrqKernel (sampleDevice "qca,ar9340-wmac") ⟨0, 0⟩).2.2.1
      2 (-16) (by decide) (by decide),
   (C3_failure_rollback noInitKernel (sampleDevice "qca,ar9340-wmac") ⟨0, 0⟩).2.2.2.1
      0x0031 (-5) (by decide) (by decide)⟩

end Ath9kAhb
